import Mathlib

/-!
The WCN loopcheck watchdog (`drivers/misc/sprdwcn/platform/loopcheck.c`)

A shallow embedding of the liveness watchdog of the connectivity coprocessor.
The single global `struct wcn_loopcheck` becomes an explicit state value, each
entry point of the file becomes a function on that state, and every call the
periodic work function makes on a collaborator is recorded, in program order,
in a list of `Call`s.  Values the code reads from outside (clock readings, the
RX counter, the answers of the bus) are fields of an environment record.

Kernel primitives.

The file is written against the kernel's bit operations, completion and
workqueue interfaces.  They are embedded by their effect on the data the
watchdog owns:

* a completion is its counter `done`: `complete` adds one, `complete_all` pins it
  at `UINT_MAX`, `reinit_completion` zeroes it, and a waiter leaves as soon as the
  counter is non-zero, taking one unit with it;
* the delayed work item is pending (with its delay), executing, or both; a
  `cancel_delayed_work_sync` that finds the work function executing keeps the
  item from being queued until that execution has ended.

Other contexts.

The entry points may be called while the work function is asleep.  The
embedding lets that happen at the two places where the work function gives up
the processor for long: while it is blocked in `wait_for_completion_timeout`
(and between the return of the wait and the test of the OPEN bit that follows
it), and while `mdbg_assert_interface` runs.  The calls made there are part of
the environment of a run, as lists of `Op`s.

`HZ` (jiffies per second, a build-time constant of the kernel) is a parameter
of every function that uses it.

The definitions for the SGM41510 charger and for the touch-panel flag follow those
of the watchdog, each in a namespace of its own; the theorems come after all the
definitions, in the same order.
-/

namespace Loopcheck

/-! ## Constants of `loopcheck.c` -/

def LOOPCHECK_TIMER_INTERVAL : Nat := 5
def WCN_LOOPCHECK_INIT : Nat := 1
def WCN_LOOPCHECK_OPEN : Nat := 2
def WCN_LOOPCHECK_FAIL : Nat := 3

/-- Value of `UINT_MAX` for the 32-bit `unsigned int done` of a completion. -/
def UINT_MAX : Nat := 2 ^ 32 - 1

def EIO : Int := 5
def ENOMEM : Int := 12

/-! ## Atomic bit operations on the `unsigned long status` word -/

/-- Kernel `test_bit(nr, addr)`. -/
def test_bit (nr : Nat) (addr : Nat) : Bool := addr.testBit nr

/-- Kernel `set_bit(nr, addr)`: the new value of the word. -/
def set_bit (nr : Nat) (addr : Nat) : Nat := addr ||| (1 <<< nr)

/-- Kernel `clear_bit(nr, addr)`: the new value of the word (the word with its
bit `nr` removed; no other bit is touched). -/
def clear_bit (nr : Nat) (addr : Nat) : Nat := addr ^^^ (addr &&& (1 <<< nr))

/-- Kernel `test_and_set_bit(nr, addr)`: old value of the bit, new word. -/
def test_and_set_bit (nr : Nat) (addr : Nat) : Bool × Nat :=
  (test_bit nr addr, set_bit nr addr)

/-- Kernel `test_and_clear_bit(nr, addr)`: old value of the bit, new word. -/
def test_and_clear_bit (nr : Nat) (addr : Nat) : Bool × Nat :=
  (test_bit nr addr, clear_bit nr addr)

/-! ## The completion (`struct completion`, field `done`) -/

/-- Kernel `struct completion`: the counter `done` (the wait queue is
represented by the environment of the waiting work function). -/
structure completion where
  done : Nat
  deriving DecidableEq, Repr

/-- Kernel `init_completion`. -/
def init_completion (_x : completion) : completion := { done := 0 }

/-- Kernel `reinit_completion`. -/
def reinit_completion (_x : completion) : completion := { done := 0 }

/-- Kernel `complete`: one more completion is recorded, unless the counter
is pinned at `UINT_MAX` by `complete_all`. -/
def complete (x : completion) : completion :=
  if x.done ≠ UINT_MAX then { done := x.done + 1 } else x

/-- Kernel `complete_all`. -/
def complete_all (_x : completion) : completion := { done := UINT_MAX }

/-- The exit of kernel `do_wait_for_common` once `done` is non-zero: one
completion is consumed unless the counter is pinned at `UINT_MAX`. -/
def consume (x : completion) : completion :=
  if x.done ≠ UINT_MAX then { done := x.done - 1 } else x

/-! ## The delayed work item (`struct delayed_work`) -/

/-- State of the delayed work item on the single-threaded workqueue:
`timer = some d` when the item is pending with delay `d` jiffies, `running`
while the work function executes, `canceling` while a
`cancel_delayed_work_sync` caller holds the pending bit and waits for the
running instance to finish. -/
structure delayed_work where
  timer : Option Nat
  running : Bool
  canceling : Bool
  deriving DecidableEq, Repr

/-- Kernel `INIT_DELAYED_WORK`. -/
def INIT_DELAYED_WORK : delayed_work :=
  { timer := none, running := false, canceling := false }

/-- Kernel `queue_delayed_work`: queues the item unless its pending bit is
already taken (it is pending, or a cancel is in progress); returns whether
it queued. -/
def queue_delayed_work (w : delayed_work) (delay : Nat) : Bool × delayed_work :=
  if w.timer.isSome || w.canceling then (false, w)
  else (true, { w with timer := some delay })

/-- Kernel `cancel_delayed_work_sync`: the pending timer is removed; when the
work function is executing the caller holds the pending bit until that
instance has finished. -/
def cancel_delayed_work_sync (w : delayed_work) : delayed_work :=
  { w with timer := none, canceling := w.running }

/-! ## The watchdog state -/

/-- The C `struct wcn_loopcheck`; `workqueue` records whether the pointer is
non-NULL. -/
structure wcn_loopcheck where
  status : Nat
  completion : completion
  work : delayed_work
  workqueue : Bool
  deriving DecidableEq, Repr

/-- The C function `start_loopcheck`. -/
def start_loopcheck (HZ : Nat) (loopcheck : wcn_loopcheck) : wcn_loopcheck :=
  if !test_bit WCN_LOOPCHECK_INIT loopcheck.status then loopcheck
  else
    let (was_open, status) := test_and_set_bit WCN_LOOPCHECK_OPEN loopcheck.status
    let loopcheck := { loopcheck with status := status }
    if was_open then loopcheck
    else
      let loopcheck := { loopcheck with completion := reinit_completion loopcheck.completion }
      { loopcheck with work := (queue_delayed_work loopcheck.work HZ).2 }

/-- The C function `stop_loopcheck`.  The three tests of its `if` are
evaluated left to right, so `test_and_clear_bit` runs whenever the first test
lets it. -/
def stop_loopcheck (loopcheck : wcn_loopcheck) : wcn_loopcheck :=
  if !test_bit WCN_LOOPCHECK_INIT loopcheck.status then loopcheck
  else
    let (was_open, status) := test_and_clear_bit WCN_LOOPCHECK_OPEN loopcheck.status
    let loopcheck := { loopcheck with status := status }
    if !was_open then loopcheck
    else if test_bit WCN_LOOPCHECK_FAIL loopcheck.status then loopcheck
    else
      let loopcheck := { loopcheck with completion := complete_all loopcheck.completion }
      { loopcheck with work := cancel_delayed_work_sync loopcheck.work }

/-- The C function `complete_kernel_loopcheck` (the acknowledgment hook). -/
def complete_kernel_loopcheck (loopcheck : wcn_loopcheck) : wcn_loopcheck :=
  { loopcheck with completion := complete loopcheck.completion }

/-! ## Formatting the probe (`snprintf(a, sizeof(a), "at+loopcheck=%llu,%llu\r\n", ...)`) -/

/-- Modelled from the spec: the macro `MARLIN_64B_NS_TO_32B_MS` of `wcn_glb.h`
(not among the sources), which replaces a nanosecond reading by the reading
"truncated to millisecond resolution": the quotient by 1000000. -/
def MARLIN_64B_NS_TO_32B_MS (ns : Nat) : Nat := ns / 1000000

/-- Decimal digits of a number, least significant first, the way the kernel's
number formatter fills its scratch buffer; `fuel` bounds the digit count. -/
def put_dec : Nat → Nat → List Char
  | 0, _ => []
  | fuel + 1, n =>
    Char.ofNat (48 + n % 10) :: (if n / 10 = 0 then [] else put_dec fuel (n / 10))

/-- Conversion `%llu` of an `unsigned long long` (at most 20 digits). -/
def fmt_llu (n : Nat) : List Char := (put_dec 20 (n % 2 ^ 64)).reverse

/-- The full expansion of the format `"at+loopcheck=%llu,%llu\r\n"`. -/
def loopcheck_fmt (tx boot : Nat) : List Char :=
  "at+loopcheck=".data ++ fmt_llu tx ++ [','] ++ fmt_llu boot ++ ['\r', '\n']

/-- The call `snprintf(a, size, fmt, ...)`: the characters stored in `a` before the
terminating NUL (at most `size - 1` of them). -/
def snprintf (size : Nat) (formatted : List Char) : List Char :=
  formatted.take (size - 1)

/-- The call `strlen(a)` on a NUL-terminated buffer holding `a`. -/
def strlen (a : List Char) : Nat := (a.takeWhile (fun c => c != Char.ofNat 0)).length

/-! ## `loopcheck_send` -/

/-- What the collaborators of `loopcheck_send` answer, and the two build-time
constants it depends on. -/
structure SendEnv where
  /-- result of `marlin_get_module_status()` -/
  module_status : Bool
  /-- whether `kzalloc` returned a buffer -/
  kzalloc_ok : Bool
  /-- whether `sprdwcn_bus_list_alloc` returned 0 -/
  list_alloc_ok : Bool
  /-- result of `sprdwcn_bus_push_list` / `sprdwcn_bus_push_list_direct` -/
  push_ret : Int
  /-- whether `mchn_ops->pop_link` is non-NULL -/
  pop_link : Bool
  /-- the kernel is built with `CONFIG_SDIOHAL` -/
  CONFIG_SDIOHAL : Bool
  /-- the header constant `PUB_HEAD_RSV` -/
  PUB_HEAD_RSV : Nat
  deriving DecidableEq, Repr

/-- Calls `loopcheck_send` makes on the allocator and the bus. -/
inductive BusCall where
  | kzalloc (size : Nat)
  | kfree
  | sprdwcn_bus_list_alloc
  | sprdwcn_bus_push_list (buf : List Char) (len : Nat)
  | sprdwcn_bus_push_list_direct (buf : List Char) (len : Nat)
  | pop_link
  | sprdwcn_bus_list_free
  deriving DecidableEq, Repr

/-- The C function `loopcheck_send`: its return value and the calls it made.
The parameter `len` is an `unsigned int`, so the argument is taken modulo `2 ^ 32`,
and the size handed to `kzalloc` is `len + PUB_HEAD_RSV + 1` computed in
`unsigned int` arithmetic: it wraps at `2 ^ 32`.  The buffer handed to the bus is
`PUB_HEAD_RSV` zero bytes, then the first `len` bytes of `buf`, then one zero
byte; these are the bytes the function writes from the start of the allocation,
and they lie inside it exactly when the size did not wrap. -/
def loopcheck_send (env : SendEnv) (buf : List Char) (len : Nat) : Int × List BusCall :=
  let len := len % 2 ^ 32
  let size := (len + env.PUB_HEAD_RSV + 1) % 2 ^ 32
  if !env.module_status then (- EIO, [])
  else if !env.kzalloc_ok then (-ENOMEM, [.kzalloc size])
  else
    let send_buf := List.replicate env.PUB_HEAD_RSV (Char.ofNat 0) ++ buf.take len ++ [Char.ofNat 0]
    if env.list_alloc_ok then
      if env.CONFIG_SDIOHAL then
        (env.push_ret,
          [.kzalloc size, .sprdwcn_bus_list_alloc,
           .sprdwcn_bus_push_list_direct send_buf len,
           if env.pop_link then .pop_link else .sprdwcn_bus_list_free])
      else
        (env.push_ret,
          [.kzalloc size, .sprdwcn_bus_list_alloc,
           .sprdwcn_bus_push_list send_buf len])
    else
      (-ENOMEM, [.kzalloc size, .sprdwcn_bus_list_alloc, .kfree])

/-! ## The periodic work function -/

/-- Entry points of the file that other contexts call while the work function
is asleep: `start_loopcheck`, `stop_loopcheck`, `complete_kernel_loopcheck`. -/
inductive Op where
  | start
  | stop
  | ack
  deriving DecidableEq, Repr

/-- One call of an entry point. -/
def run_op (HZ : Nat) (o : Op) (loopcheck : wcn_loopcheck) : wcn_loopcheck :=
  match o with
  | .start => start_loopcheck HZ loopcheck
  | .stop => stop_loopcheck loopcheck
  | .ack => complete_kernel_loopcheck loopcheck

/-- A sequence of calls of entry points, in order. -/
def run_ops (HZ : Nat) (ops : List Op) (loopcheck : wcn_loopcheck) : wcn_loopcheck :=
  ops.foldl (fun l o => run_op HZ o l) loopcheck

/-- Everything one run of the work function reads from outside. -/
structure TickEnv where
  /-- reading of `local_clock()` at entry, in ns -/
  local_clock : Nat
  /-- reading of `marlin_bootup_time_get()`, in ns -/
  marlin_bootup_time : Nat
  /-- first reading of `sprdwcn_bus_get_rx_total_cnt()` -/
  rx_total_cnt_a : Nat
  /-- second reading of `sprdwcn_bus_get_rx_total_cnt()`, after the sleep -/
  rx_total_cnt_b : Nat
  /-- answers of the bus to `loopcheck_send` -/
  send : SendEnv
  /-- entry points called by other contexts while the work function is blocked in
  `wait_for_completion_timeout`, before the timeout expires -/
  during_wait : List Op
  /-- jiffies spent blocked when the wait is released by a completion -/
  elapsed : Nat
  /-- entry points called by other contexts between the return of the wait and
  the test of the OPEN bit that follows it -/
  after_wait : List Op
  /-- entry points called (by the reporter or by other contexts) while
  `mdbg_assert_interface` runs -/
  during_report : List Op
  deriving DecidableEq, Repr

/-- Calls of the work function on its collaborators. -/
inductive Call where
  | loopcheck_send (buf : List Char) (len : Nat) (ret : Int)
  | wait_for_completion_timeout (timeout : Nat) (timeleft : Nat)
  /-- the field `status` is the status word at the moment of the call -/
  | mdbg_assert_interface (reason : String) (status : Nat)
  | queue_delayed_work (delay : Nat) (queued : Bool)
  deriving DecidableEq, Repr

/-- The blocked phase of kernel `do_wait_for_common`: the waiter leaves as soon as
`done` is non-zero, consuming one completion; until then the calls of the other
contexts take effect one by one.  Returns whether the waiter was released, the
state, and the calls that had not happened yet at the release. -/
def blocked (HZ : Nat) : List Op → wcn_loopcheck → Bool × wcn_loopcheck × List Op
  | [], l =>
    if l.completion.done ≠ 0 then (true, { l with completion := consume l.completion }, [])
    else (false, l, [])
  | o :: rest, l =>
    if l.completion.done ≠ 0 then
      (true, { l with completion := consume l.completion }, o :: rest)
    else blocked HZ rest (run_op HZ o l)

/-- Kernel `wait_for_completion_timeout(&loopcheck.completion, timeout)` as the
work function sees it: the value returned (0 on timeout, else the jiffies left,
at least 1) and the state when the work function goes on to test the OPEN bit. -/
def wait_for_completion_timeout (HZ : Nat) (env : TickEnv) (timeout : Nat)
    (loopcheck : wcn_loopcheck) : Nat × wcn_loopcheck :=
  let (released, loopcheck, rest) := blocked HZ env.during_wait loopcheck
  let timeleft := if released then max 1 (timeout - env.elapsed) else 0
  (timeleft, run_ops HZ (rest ++ env.after_wait) loopcheck)

/-- The buffer `a` built at the top of `loopcheck_work_queue`. -/
def probe (env : TickEnv) : List Char :=
  let loopcheck_tx_ns := env.local_clock % 2 ^ 64
  let marlin_boot_t := env.marlin_bootup_time % 2 ^ 64
  let loopcheck_tx_ns := MARLIN_64B_NS_TO_32B_MS loopcheck_tx_ns
  let marlin_boot_t := MARLIN_64B_NS_TO_32B_MS marlin_boot_t
  snprintf 64 (loopcheck_fmt loopcheck_tx_ns marlin_boot_t)

/-- The C function `loopcheck_work_queue`: the state it leaves and the calls it
made.  (Log lines are not recorded.) -/
def loopcheck_work_queue (HZ : Nat) (env : TickEnv) (loopcheck : wcn_loopcheck) :
    wcn_loopcheck × List Call :=
  let a := probe env
  if !test_bit WCN_LOOPCHECK_OPEN loopcheck.status then (loopcheck, [])
  else
    let sprdwcn_rx_cnt_a := env.rx_total_cnt_a
    let sprdwcn_rx_cnt_b := env.rx_total_cnt_b
    if sprdwcn_rx_cnt_a == sprdwcn_rx_cnt_b then
      let sent := Call.loopcheck_send a (strlen a) (loopcheck_send env.send a (strlen a)).1
      let (timeleft, loopcheck) := wait_for_completion_timeout HZ env (4 * HZ) loopcheck
      let waited := Call.wait_for_completion_timeout (4 * HZ) timeleft
      if !test_bit WCN_LOOPCHECK_OPEN loopcheck.status then (loopcheck, [sent, waited])
      else if timeleft == 0 then
        let loopcheck := { loopcheck with status := set_bit WCN_LOOPCHECK_FAIL loopcheck.status }
        let reported := Call.mdbg_assert_interface "WCN loopcheck erro!" loopcheck.status
        let loopcheck := run_ops HZ env.during_report loopcheck
        let loopcheck := { loopcheck with status := clear_bit WCN_LOOPCHECK_FAIL loopcheck.status }
        (loopcheck, [sent, waited, reported])
      else
        let (queued, work) := queue_delayed_work loopcheck.work (LOOPCHECK_TIMER_INTERVAL * HZ)
        ({ loopcheck with work := work },
          [sent, waited, .queue_delayed_work (LOOPCHECK_TIMER_INTERVAL * HZ) queued])
    else
      let (queued, work) := queue_delayed_work loopcheck.work (LOOPCHECK_TIMER_INTERVAL * HZ)
      ({ loopcheck with work := work },
        [.queue_delayed_work (LOOPCHECK_TIMER_INTERVAL * HZ) queued])

/-- The worker thread of the workqueue running the pending item once: the item
leaves the pending state, the work function runs, and a cancel waiting for this
instance is let go. -/
def worker_run (HZ : Nat) (env : TickEnv) (loopcheck : wcn_loopcheck) :
    wcn_loopcheck × List Call :=
  let loopcheck :=
    { loopcheck with work := { loopcheck.work with timer := none, running := true } }
  let (loopcheck, calls) := loopcheck_work_queue HZ env loopcheck
  ({ loopcheck with work := { loopcheck.work with running := false, canceling := false } }, calls)

/-- The C function `loopcheck_init`; `wq_ok` tells whether
`create_singlethread_workqueue` returned a workqueue. -/
def loopcheck_init (wq_ok : Bool) (loopcheck : wcn_loopcheck) : Int × wcn_loopcheck :=
  let loopcheck := { loopcheck with status := 0 }
  let loopcheck := { loopcheck with completion := init_completion loopcheck.completion }
  let loopcheck := { loopcheck with workqueue := wq_ok }
  if !loopcheck.workqueue then (-ENOMEM, loopcheck)
  else
    let loopcheck := { loopcheck with status := set_bit WCN_LOOPCHECK_INIT loopcheck.status }
    (0, { loopcheck with work := INIT_DELAYED_WORK })

/-- Kernel `destroy_workqueue(wq)`, as far as this file depends on it: whether the
call returns.  It dereferences `wq` without a NULL test, so on a NULL pointer it
faults and does not return.  On a workqueue it waits for the work that is queued on
it and frees it; it does not touch the timer of a delayed work item and leaves the
pointer `loopcheck.workqueue` as it is, so it changes none of the fields of the
state. -/
def destroy_workqueue (wq : Bool) : Bool := wq

/-- The C function `loopcheck_deinit`: the value it returns and the state it leaves.
The value is `none` when the call does not return: `loopcheck.workqueue` is NULL
before `loopcheck_init` and after a `loopcheck_init` that failed, `destroy_workqueue`
faults on it, and the state is then the one `stop_loopcheck` left (the status word
is not reset).  The freed workqueue is not tracked: the pointer stays non-NULL
after a `loopcheck_deinit` that returned. -/
def loopcheck_deinit (loopcheck : wcn_loopcheck) : Option Int × wcn_loopcheck :=
  let loopcheck := stop_loopcheck loopcheck
  if !destroy_workqueue loopcheck.workqueue then (none, loopcheck)
  else
    let loopcheck := { loopcheck with status := 0 }
    (some 0, loopcheck)

/-! ## Sequences of operations -/

/-- One step of the life of the watchdog: a call of an entry point, or the
worker running the pending work item (nothing happens when none is pending). -/
inductive Action where
  | call (o : Op)
  | tick (env : TickEnv)
  deriving DecidableEq, Repr

/-- Effect of one step. -/
def step (HZ : Nat) (a : Action) (loopcheck : wcn_loopcheck) : wcn_loopcheck :=
  match a with
  | .call o => run_op HZ o loopcheck
  | .tick env =>
    if loopcheck.work.timer.isSome then (worker_run HZ env loopcheck).1 else loopcheck

/-- Effect of a sequence of steps, in order. -/
def run (HZ : Nat) (acts : List Action) (loopcheck : wcn_loopcheck) : wcn_loopcheck :=
  acts.foldl (fun l a => step HZ a l) loopcheck

/-- No `start_loopcheck` is called while the fatal reporter of this step runs. -/
def no_start_in_report : Action → Bool
  | .call _ => true
  | .tick env => !env.during_report.contains Op.start

/-- One step of the whole life of the module: `loopcheck_init` (with the answer of
`create_singlethread_workqueue`), `loopcheck_deinit`, or a step of the running
watchdog. -/
inductive Lifecycle where
  | init (wq_ok : Bool)
  | deinit
  | act (a : Action)
  deriving DecidableEq, Repr

/-- Effect of one step of the life of the module. -/
def lifecycle_step (HZ : Nat) (e : Lifecycle) (loopcheck : wcn_loopcheck) : wcn_loopcheck :=
  match e with
  | .init wq_ok => (loopcheck_init wq_ok loopcheck).2
  | .deinit => (loopcheck_deinit loopcheck).2
  | .act a => step HZ a loopcheck

/-- Effect of a sequence of steps of the life of the module, in order. -/
def lifecycle_run (HZ : Nat) (es : List Lifecycle) (loopcheck : wcn_loopcheck) :
    wcn_loopcheck :=
  es.foldl (fun l e => lifecycle_step HZ e l) loopcheck

/-- The zero-filled `static struct wcn_loopcheck loopcheck` the module starts with. -/
def boot : wcn_loopcheck :=
  { status := 0, completion := { done := 0 },
    work := { timer := none, running := false, canceling := false }, workqueue := false }

/-! ## The wire format as the specification words it -/

/-- The decimal numeral of a number, without leading zeros. -/
def decimal (n : Nat) : List Char := (Nat.repr n).data

/-- The line `"at+loopcheck=<tx_ms>,<boot_ms>\r\n"` of the specification. -/
def wire_format (tx_ms boot_ms : Nat) : List Char :=
  "at+loopcheck=".data ++ decimal tx_ms ++ ",".data ++ decimal boot_ms ++ "\r\n".data

/-! ## Invariants of the three phases -/

/-- Holds between two steps: initialized, no report in progress, the work function
not executing, and a tick pending only with OPEN set. -/
def Quiet (l : wcn_loopcheck) : Prop :=
  test_bit WCN_LOOPCHECK_INIT l.status = true ∧ test_bit WCN_LOOPCHECK_FAIL l.status = false ∧
  l.work.running = false ∧ l.work.canceling = false ∧
  (l.work.timer.isSome = true → test_bit WCN_LOOPCHECK_OPEN l.status = true)

/-- Holds inside the work function around its wait: nothing is pending, and OPEN can
only be clear because a `stop_loopcheck` is waiting for this instance. -/
def Waiting (l : wcn_loopcheck) : Prop :=
  test_bit WCN_LOOPCHECK_INIT l.status = true ∧ test_bit WCN_LOOPCHECK_FAIL l.status = false ∧
  l.work.running = true ∧ l.work.timer = none ∧
  (test_bit WCN_LOOPCHECK_OPEN l.status = false → l.work.canceling = true)

/-- Holds inside the work function while the reporter runs. -/
def Reporting (l : wcn_loopcheck) : Prop :=
  test_bit WCN_LOOPCHECK_INIT l.status = true ∧ test_bit WCN_LOOPCHECK_FAIL l.status = true ∧
  l.work.running = true ∧ l.work.timer = none

/-- Holds after a completed `stop_loopcheck` until the next `start_loopcheck`. -/
def Stopped (l : wcn_loopcheck) : Prop :=
  test_bit WCN_LOOPCHECK_OPEN l.status = false ∧ l.work.timer = none

/-- The flag invariant on a status word: OPEN is set only if INIT is set. -/
def flags_ok (status : Nat) : Prop :=
  test_bit WCN_LOOPCHECK_OPEN status = true → test_bit WCN_LOOPCHECK_INIT status = true

/-! ## Sample inputs (HZ = 100) -/

/-- The watchdog right after a successful `loopcheck_init`. -/
def sample_idle : wcn_loopcheck :=
  (loopcheck_init true
    { status := 0, completion := { done := 0 }, work := INIT_DELAYED_WORK, workqueue := false }).2

/-- The watchdog after `loopcheck_init` and `start_loopcheck`. -/
def sample_started : wcn_loopcheck := start_loopcheck 100 sample_idle

/-- A bus on which every step of `loopcheck_send` succeeds. -/
def sample_bus : SendEnv :=
  { module_status := true, kzalloc_ok := true, list_alloc_ok := true, push_ret := 0,
    pop_link := false, CONFIG_SDIOHAL := false, PUB_HEAD_RSV := 4 }

/-- A quiet run of the work function: the clock reads 1000 ms, the coprocessor
booted at 500 ms, the RX counter stays at 100, and nobody calls in. -/
def sample_env : TickEnv :=
  { local_clock := 1000000000, marlin_bootup_time := 500000000,
    rx_total_cnt_a := 100, rx_total_cnt_b := 100, send := sample_bus,
    during_wait := [], elapsed := 0, after_wait := [], during_report := [] }

/-- The same run with the acknowledgment arriving 2 s into the wait. -/
def sample_env_acked : TickEnv :=
  { sample_env with during_wait := [Op.ack], elapsed := 200 }

/-- A run that times out while, during the fatal report, the watchdog is stopped,
started again and stopped again. -/
def sample_env_restart : TickEnv :=
  { sample_env with during_report := [Op.stop, Op.start, Op.stop] }

/-- The started watchdog at the moment the worker has taken the pending item and
enters the work function. -/
def sample_in_tick : wcn_loopcheck :=
  { sample_started with work := { timer := none, running := true, canceling := false } }

/-- A quiet run in which `marlin_get_module_status()` is false, so that
`loopcheck_send` fails with `-EIO`. -/
def sample_env_send_fails : TickEnv :=
  { sample_env with send := { sample_bus with module_status := false } }

/-- A run that times out and whose reporter calls `stop_loopcheck`. -/
def sample_env_stop_in_report : TickEnv :=
  { sample_env with during_report := [Op.stop] }

/-- The same run with RX traffic between the two samples. -/
def sample_env_traffic : TickEnv :=
  { sample_env with rx_total_cnt_b := 101 }

/-- The started watchdog inside the fatal report: INIT, OPEN and FAIL set, the work
function executing. -/
def sample_escalating : wcn_loopcheck :=
  { sample_in_tick with status := set_bit WCN_LOOPCHECK_FAIL sample_in_tick.status }

/-- A run during whose wait `stop_loopcheck` is called. -/
def sample_env_stopped : TickEnv :=
  { sample_env with during_wait := [Op.stop], elapsed := 200 }

/-- A run whose wait times out and is followed by a `stop_loopcheck` before the
work function tests the OPEN bit. -/
def sample_env_late_stop : TickEnv :=
  { sample_env with after_wait := [Op.stop] }

/-- A run during whose wait `stop_loopcheck` is called and, while that call still
waits for the work function to finish, `start_loopcheck`. -/
def sample_env_stop_start : TickEnv :=
  { sample_env with during_wait := [Op.stop, Op.start] }

end Loopcheck

/-!
The SGM41510 charger (`drivers/power/supply/sgm41510-charger.c`)

The register setters and getters of the charger.  The chip is reached through
`i2c_smbus_read_byte_data` and `i2c_smbus_write_byte_data`; the embedding keeps
the contents of the chip's registers and the result the bus gives to reads and
to writes.  A `u32` argument is a natural number taken modulo `2 ^ 32`, a `u8`
local is taken modulo `256`, and a `u32` subtraction wraps.
-/

namespace Sgm41510

/-! ## Constants of `sgm41510-charger.c` -/

/-- Kernel macro `GENMASK(h, l)`: the word whose bits `l` to `h` are set. -/
def GENMASK (h l : Nat) : Nat := 2 ^ (h + 1) - 2 ^ l

def SGM41510_REG_0 : Nat := 0x0
def SGM41510_REG_4 : Nat := 0x4
def SGM41510_REG_D : Nat := 0xd
def SGM41510_REG_15 : Nat := 0x15

def SGM4154x_IINDPM_I_MASK : Nat := GENMASK 5 0
def SGM4154x_IINDPM_I_MIN_uA : Nat := 100000
def SGM4154x_IINDPM_I_MAX_uA : Nat := 4900000
def SGM4154x_IINDPM_STEP_uA : Nat := 100000

def SGM4154x_ICHRG_I_MASK : Nat := GENMASK 6 0
def SGM4154x_ICHRG_I_MIN_uA : Nat := 0
def SGM4154x_ICHRG_I_MAX_uA : Nat := 5056000
def SGM4154x_ICHRG_I_STEP_uA : Nat := 64000

def SGM41510_VINDPM_V_MASK : Nat := GENMASK 6 0
def SGM41510_VINDPM_V_MIN_uV : Nat := 2600000
def SGM41510_VINDPM_V_MAX_uV : Nat := 15300000
def SGM41510_VINDPM_STEP_uV : Nat := 100000

def SGM41510_REG_OVP_MASK : Nat := GENMASK 4 2
def SGM41510_OVP_V_MIN_uV : Nat := 10300000
def SGM41510_OVP_V_MAX_uV : Nat := 15100000
def SGM41510_OVP_STEP_uV : Nat := 1600000
def SGM41510_REG_OVP_SHIFT : Nat := 2

/-! ## Machine arithmetic -/

/-- Conversion to `u8`. -/
def u8 (n : Nat) : Nat := n % 256

/-- Conversion to `u32`. -/
def u32 (n : Nat) : Nat := n % 2 ^ 32

/-- Subtraction of two `u32` values, which wraps modulo `2 ^ 32`. -/
def u32_sub (a b : Nat) : Nat := (u32 a + 2 ^ 32 - u32 b) % 2 ^ 32

/-! ## The chip behind the I2C bus -/

/-- The part of `struct sgm41510_charger_info` the register functions use, with the
chip its `client` field points to. -/
structure sgm41510_charger_info where
  /-- contents of the registers of the chip -/
  regs : Nat → Nat
  /-- what the bus answers to a read: a negative errno when reads fail -/
  read_error : Int
  /-- what the bus answers to a write: a negative errno when writes fail -/
  write_error : Int
  /-- the field `last_limit_current` -/
  last_limit_current : Nat

/-- Kernel `i2c_smbus_read_byte_data`: the byte read, or a negative errno. -/
def i2c_smbus_read_byte_data (info : sgm41510_charger_info) (reg : Nat) : Int :=
  if info.read_error < 0 then info.read_error else ((u8 (info.regs reg) : Nat) : Int)

/-- Kernel `i2c_smbus_write_byte_data`: 0, or a negative errno. -/
def i2c_smbus_write_byte_data (info : sgm41510_charger_info) (reg data : Nat) :
    Int × sgm41510_charger_info :=
  if info.write_error < 0 then (info.write_error, info)
  else (0, { info with regs := fun r => if r = reg then u8 data else info.regs r })

/-- The C function `sgm41510_read`: the return value, and the byte stored through
`data` when the read succeeds. -/
def sgm41510_read (info : sgm41510_charger_info) (reg : Nat) : Int × Option Nat :=
  let ret := i2c_smbus_read_byte_data info reg
  if ret < 0 then (ret, none) else (0, some (u8 ret.toNat))

/-- The C function `sgm41510_write`. -/
def sgm41510_write (info : sgm41510_charger_info) (reg data : Nat) :
    Int × sgm41510_charger_info :=
  i2c_smbus_write_byte_data info reg (u8 data)

/-- The C function `sgm41510_update_bits` (`mask` and `data` are `u8` parameters). -/
def sgm41510_update_bits (info : sgm41510_charger_info) (reg mask data : Nat) :
    Int × sgm41510_charger_info :=
  let mask := u8 mask
  let data := u8 data
  match sgm41510_read info reg with
  | (ret, none) => (ret, info)
  | (_, some v) =>
    let v := u8 (v &&& (0xFF ^^^ mask))
    let v := u8 (v ||| (data &&& mask))
    sgm41510_write info reg v

/-! ## Setters and getters -/

/-- The local `reg_val` of `sgm41510_charger_set_vindpm`. -/
def vindpm_reg_val (vol : Nat) : Nat :=
  let vol := u32 vol
  let vol :=
    if vol ≤ 3900 then 3900
    else if vol > SGM41510_VINDPM_V_MAX_uV then SGM41510_VINDPM_V_MAX_uV
    else vol
  u8 (u32_sub vol SGM41510_VINDPM_V_MIN_uV / SGM41510_VINDPM_STEP_uV)

/-- The C function `sgm41510_charger_set_vindpm`. -/
def sgm41510_charger_set_vindpm (info : sgm41510_charger_info) (vol : Nat) :
    Int × sgm41510_charger_info :=
  sgm41510_update_bits info SGM41510_REG_D SGM41510_VINDPM_V_MASK (vindpm_reg_val vol)

/-- The local `reg_val` of `sgm41510_charger_set_ovp`. -/
def ovp_reg_val (vol : Nat) : Nat :=
  let vol := u32 vol
  let vol :=
    if vol ≤ SGM41510_OVP_V_MIN_uV then SGM41510_OVP_V_MIN_uV
    else if vol > SGM41510_OVP_V_MAX_uV then SGM41510_VINDPM_V_MAX_uV
    else vol
  u8 (u32_sub vol SGM41510_OVP_V_MIN_uV / SGM41510_OVP_STEP_uV)

/-- The C function `sgm41510_charger_set_ovp`. -/
def sgm41510_charger_set_ovp (info : sgm41510_charger_info) (vol : Nat) :
    Int × sgm41510_charger_info :=
  sgm41510_update_bits info SGM41510_REG_15 SGM41510_REG_OVP_MASK
    (ovp_reg_val vol <<< SGM41510_REG_OVP_SHIFT)

/-- The local `reg_val` of `sgm41510_charger_set_current`. -/
def ichrg_reg_val (cur : Nat) : Nat :=
  let cur := u32 cur
  let cur := if cur ≥ SGM4154x_ICHRG_I_MAX_uA then SGM4154x_ICHRG_I_MAX_uA else cur
  u8 (u32_sub cur SGM4154x_ICHRG_I_MIN_uA / SGM4154x_ICHRG_I_STEP_uA)

/-- The C function `sgm41510_charger_set_current`. -/
def sgm41510_charger_set_current (info : sgm41510_charger_info) (cur : Nat) :
    Int × sgm41510_charger_info :=
  sgm41510_update_bits info SGM41510_REG_4 SGM4154x_ICHRG_I_MASK (ichrg_reg_val cur)

/-- The C function `sgm41510_charger_get_current`: the return value, and the value
stored through `cur` when the read succeeds. -/
def sgm41510_charger_get_current (info : sgm41510_charger_info) : Int × Option Nat :=
  match sgm41510_read info SGM41510_REG_4 with
  | (ret, none) => (ret, none)
  | (_, some reg_val) =>
    let reg_val := u8 (reg_val &&& SGM4154x_ICHRG_I_MASK)
    let cur := u32 (reg_val * SGM4154x_ICHRG_I_STEP_uA + SGM4154x_ICHRG_I_MIN_uA)
    let cur := if cur ≥ SGM4154x_ICHRG_I_MAX_uA then SGM4154x_ICHRG_I_MAX_uA else cur
    (0, some cur)

/-- The value of `limit_cur` after the clamp of `sgm41510_charger_set_limit_current`. -/
def iindpm_clamped (limit_cur : Nat) : Nat :=
  let limit_cur := u32 limit_cur
  if limit_cur ≥ SGM4154x_IINDPM_I_MAX_uA then SGM4154x_IINDPM_I_MAX_uA else limit_cur

/-- The local `reg_val` of `sgm41510_charger_set_limit_current`. -/
def iindpm_reg_val (limit_cur : Nat) : Nat :=
  u8 (u32_sub (iindpm_clamped limit_cur) SGM4154x_IINDPM_I_MIN_uA / SGM4154x_IINDPM_STEP_uA)

/-- The C function `sgm41510_charger_set_limit_current`. -/
def sgm41510_charger_set_limit_current (info : sgm41510_charger_info) (limit_cur : Nat) :
    Int × sgm41510_charger_info :=
  let (ret, info) :=
    sgm41510_update_bits info SGM41510_REG_0 SGM4154x_IINDPM_I_MASK (iindpm_reg_val limit_cur)
  if ret ≠ 0 then (ret, info)
  else (ret, { info with last_limit_current := iindpm_clamped limit_cur })

/-- The C function `sgm41510_charger_get_limit_current`: the return value (the
function is declared `u32`, so a negative errno comes back converted), and the
value stored through `limit_cur` when the read succeeds. -/
def sgm41510_charger_get_limit_current (info : sgm41510_charger_info) : Nat × Option Nat :=
  match sgm41510_read info SGM41510_REG_0 with
  | (ret, none) => ((ret % 2 ^ 32).toNat, none)
  | (_, some reg_val) =>
    let reg_val := u8 (reg_val &&& SGM4154x_IINDPM_I_MASK)
    let limit_cur := u32 (reg_val * SGM4154x_IINDPM_STEP_uA + SGM4154x_IINDPM_I_MIN_uA)
    let limit_cur :=
      if limit_cur ≥ SGM4154x_IINDPM_I_MAX_uA then SGM4154x_IINDPM_I_MAX_uA else limit_cur
    (0, some limit_cur)

/-! ## Sample inputs -/

/-- A chip with all registers zero behind a working bus. -/
def sample_info : sgm41510_charger_info :=
  { regs := fun _ => 0, read_error := 0, write_error := 0, last_limit_current := 0 }

/-- A chip whose registers all hold `0xC0` behind a working bus. -/
def sample_info_c0 : sgm41510_charger_info :=
  { regs := fun _ => 0xC0, read_error := 0, write_error := 0, last_limit_current := 0 }

end Sgm41510

/-!
The touch-panel flag (`drivers/input/touchscreen/tp_common.c`)

The global `bool tp_inited` is passed explicitly.
-/

namespace TpCommon

/-- The C function `tp_is_inited`. -/
def tp_is_inited (tp_inited : Bool) : Bool := tp_inited

/-- The C function `tp_set_inited`: the new value of the global `tp_inited`. The
body is the assignment `tp_inited = true;`. -/
def tp_set_inited (_tp_inited : Bool) (_inited : Bool) : Bool := true

end TpCommon

namespace Loopcheck

/-! ## Bit lemmas -/

theorem test_bit_set_bit (n m x : Nat) :
    test_bit n (set_bit m x) = (decide (n = m) || test_bit n x) := by
  unfold test_bit set_bit
  rw [Nat.testBit_or, Nat.one_shiftLeft, Nat.testBit_two_pow, Bool.or_comm]
  congr 1
  simp [eq_comm]

theorem test_bit_clear_bit (n m x : Nat) :
    test_bit n (clear_bit m x) = (!decide (n = m) && test_bit n x) := by
  unfold test_bit clear_bit
  rw [Nat.testBit_xor, Nat.testBit_and, Nat.one_shiftLeft, Nat.testBit_two_pow]
  by_cases h : m = n
  · subst h; cases Nat.testBit x m <;> simp
  · have h2 : ¬ n = m := fun e => h e.symm
    cases Nat.testBit x n <;> simp [h, h2]

theorem set_bit_of_test_bit (n x : Nat) (h : test_bit n x = true) : set_bit n x = x := by
  apply Nat.eq_of_testBit_eq
  intro i
  have := test_bit_set_bit i n x
  unfold test_bit at this h
  rw [this]
  by_cases e : i = n
  · subst e; simp [h]
  · simp [e]

theorem clear_bit_of_test_bit (n x : Nat) (h : test_bit n x = false) : clear_bit n x = x := by
  apply Nat.eq_of_testBit_eq
  intro i
  have := test_bit_clear_bit i n x
  unfold test_bit at this h
  rw [this]
  by_cases e : i = n
  · subst e; simp [h]
  · simp [e]

theorem clear_bit_set_bit (n x : Nat) (h : test_bit n x = false) :
    clear_bit n (set_bit n x) = x := by
  apply Nat.eq_of_testBit_eq
  intro i
  have h1 := test_bit_clear_bit i n (set_bit n x)
  have h2 := test_bit_set_bit i n x
  unfold test_bit at h1 h2 h
  rw [h1, h2]
  by_cases e : i = n
  · subst e; simp [h]
  · simp [e]

/-! ## The entry points, case by case -/

theorem start_loopcheck_not_init (HZ : Nat) (l : wcn_loopcheck)
    (h : test_bit WCN_LOOPCHECK_INIT l.status = false) : start_loopcheck HZ l = l := by
  simp [start_loopcheck, h]

theorem start_loopcheck_open (HZ : Nat) (l : wcn_loopcheck)
    (h : test_bit WCN_LOOPCHECK_OPEN l.status = true) : start_loopcheck HZ l = l := by
  unfold start_loopcheck
  split
  · rfl
  · simp [test_and_set_bit, h, set_bit_of_test_bit _ _ h]

theorem start_loopcheck_idle (HZ : Nat) (l : wcn_loopcheck)
    (hi : test_bit WCN_LOOPCHECK_INIT l.status = true)
    (ho : test_bit WCN_LOOPCHECK_OPEN l.status = false) :
    start_loopcheck HZ l =
      { status := set_bit WCN_LOOPCHECK_OPEN l.status,
        completion := { done := 0 },
        work := (queue_delayed_work l.work HZ).2,
        workqueue := l.workqueue } := by
  simp [start_loopcheck, test_and_set_bit, hi, ho, reinit_completion]

theorem stop_loopcheck_not_init (l : wcn_loopcheck)
    (h : test_bit WCN_LOOPCHECK_INIT l.status = false) : stop_loopcheck l = l := by
  simp [stop_loopcheck, h]

theorem stop_loopcheck_not_open (l : wcn_loopcheck)
    (h : test_bit WCN_LOOPCHECK_OPEN l.status = false) : stop_loopcheck l = l := by
  unfold stop_loopcheck
  split
  · rfl
  · simp [test_and_clear_bit, h, clear_bit_of_test_bit _ _ h]

theorem stop_loopcheck_failing (l : wcn_loopcheck)
    (hi : test_bit WCN_LOOPCHECK_INIT l.status = true)
    (ho : test_bit WCN_LOOPCHECK_OPEN l.status = true)
    (hf : test_bit WCN_LOOPCHECK_FAIL l.status = true) :
    stop_loopcheck l = { l with status := clear_bit WCN_LOOPCHECK_OPEN l.status } := by
  have : test_bit WCN_LOOPCHECK_FAIL (clear_bit WCN_LOOPCHECK_OPEN l.status) = true := by
    rw [test_bit_clear_bit, hf]; decide
  simp [stop_loopcheck, test_and_clear_bit, hi, ho, this]

theorem stop_loopcheck_running (l : wcn_loopcheck)
    (hi : test_bit WCN_LOOPCHECK_INIT l.status = true)
    (ho : test_bit WCN_LOOPCHECK_OPEN l.status = true)
    (hf : test_bit WCN_LOOPCHECK_FAIL l.status = false) :
    stop_loopcheck l =
      { status := clear_bit WCN_LOOPCHECK_OPEN l.status,
        completion := { done := UINT_MAX },
        work := cancel_delayed_work_sync l.work,
        workqueue := l.workqueue } := by
  have : test_bit WCN_LOOPCHECK_FAIL (clear_bit WCN_LOOPCHECK_OPEN l.status) = false := by
    rw [test_bit_clear_bit, hf]; decide
  simp [stop_loopcheck, test_and_clear_bit, hi, ho, this, complete_all]

theorem start_loopcheck_bit (HZ : Nat) (l : wcn_loopcheck) (n : Nat)
    (hn : n ≠ WCN_LOOPCHECK_OPEN) :
    test_bit n (start_loopcheck HZ l).status = test_bit n l.status := by
  cases hi : test_bit WCN_LOOPCHECK_INIT l.status
  · rw [start_loopcheck_not_init HZ l hi]
  · cases ho : test_bit WCN_LOOPCHECK_OPEN l.status
    · rw [start_loopcheck_idle HZ l hi ho]
      simp [test_bit_set_bit, hn]
    · rw [start_loopcheck_open HZ l ho]

theorem stop_loopcheck_bit (l : wcn_loopcheck) (n : Nat) (hn : n ≠ WCN_LOOPCHECK_OPEN) :
    test_bit n (stop_loopcheck l).status = test_bit n l.status := by
  cases hi : test_bit WCN_LOOPCHECK_INIT l.status
  · rw [stop_loopcheck_not_init l hi]
  · cases ho : test_bit WCN_LOOPCHECK_OPEN l.status
    · rw [stop_loopcheck_not_open l ho]
    · cases hf : test_bit WCN_LOOPCHECK_FAIL l.status
      · rw [stop_loopcheck_running l hi ho hf]
        simp [test_bit_clear_bit, hn]
      · rw [stop_loopcheck_failing l hi ho hf]
        simp [test_bit_clear_bit, hn]

theorem run_op_bit (HZ : Nat) (o : Op) (l : wcn_loopcheck) (n : Nat)
    (hn : n ≠ WCN_LOOPCHECK_OPEN) :
    test_bit n (run_op HZ o l).status = test_bit n l.status := by
  cases o
  · exact start_loopcheck_bit HZ l n hn
  · exact stop_loopcheck_bit l n hn
  · rfl

theorem run_ops_nil (HZ : Nat) (l : wcn_loopcheck) : run_ops HZ [] l = l := rfl

theorem run_ops_cons (HZ : Nat) (o : Op) (ops : List Op) (l : wcn_loopcheck) :
    run_ops HZ (o :: ops) l = run_ops HZ ops (run_op HZ o l) := rfl

theorem run_ops_append (HZ : Nat) (ops ops' : List Op) (l : wcn_loopcheck) :
    run_ops HZ (ops ++ ops') l = run_ops HZ ops' (run_ops HZ ops l) := by
  simp [run_ops, List.foldl_append]

theorem run_ops_bit (HZ : Nat) (ops : List Op) (l : wcn_loopcheck) (n : Nat)
    (hn : n ≠ WCN_LOOPCHECK_OPEN) :
    test_bit n (run_ops HZ ops l).status = test_bit n l.status := by
  induction ops generalizing l with
  | nil => rfl
  | cons o ops ih => rw [run_ops_cons, ih, run_op_bit HZ o l n hn]

theorem blocked_bit (HZ : Nat) (ops : List Op) (l : wcn_loopcheck) (n : Nat)
    (hn : n ≠ WCN_LOOPCHECK_OPEN) :
    test_bit n (blocked HZ ops l).2.1.status = test_bit n l.status := by
  induction ops generalizing l with
  | nil => unfold blocked; split <;> rfl
  | cons o ops ih =>
    unfold blocked
    split
    · rfl
    · rw [ih, run_op_bit HZ o l n hn]

theorem wait_for_completion_timeout_bit (HZ : Nat) (env : TickEnv) (t : Nat)
    (l : wcn_loopcheck) (n : Nat) (hn : n ≠ WCN_LOOPCHECK_OPEN) :
    test_bit n (wait_for_completion_timeout HZ env t l).2.status = test_bit n l.status := by
  simp only [wait_for_completion_timeout]
  rw [run_ops_bit HZ _ _ n hn, blocked_bit HZ _ _ n hn]

/-- With nobody calling in, a wait on an empty completion times out and leaves the
state as it was. -/
theorem wait_for_completion_timeout_quiet (HZ : Nat) (env : TickEnv) (t : Nat)
    (l : wcn_loopcheck) (hd : l.completion.done = 0) (hw : env.during_wait = [])
    (ha : env.after_wait = []) :
    wait_for_completion_timeout HZ env t l = (0, l) := by
  simp [wait_for_completion_timeout, hw, ha, blocked, hd, run_ops]

/-- With nobody calling in, a wait on a completion that already holds a completion
returns at once and consumes it. -/
theorem wait_for_completion_timeout_credit (HZ : Nat) (env : TickEnv) (t : Nat)
    (l : wcn_loopcheck) (hd : l.completion.done ≠ 0) (hw : env.during_wait = [])
    (ha : env.after_wait = []) :
    wait_for_completion_timeout HZ env t l =
      (max 1 (t - env.elapsed), { l with completion := consume l.completion }) := by
  simp [wait_for_completion_timeout, hw, ha, blocked, hd, run_ops]


theorem blocked_of_done (HZ : Nat) (ops : List Op) (l : wcn_loopcheck)
    (h : l.completion.done ≠ 0) : (blocked HZ ops l).1 = true := by
  cases ops <;> simp [blocked, h]

theorem blocked_of_ack (HZ : Nat) (ops : List Op) (l : wcn_loopcheck)
    (h : Op.ack ∈ ops) : (blocked HZ ops l).1 = true := by
  induction ops generalizing l with
  | nil => cases h
  | cons o rest ih =>
    by_cases hd : l.completion.done = 0
    · have e : blocked HZ (o :: rest) l = blocked HZ rest (run_op HZ o l) := by
        simp [blocked, hd]
      rw [e]
      rcases List.mem_cons.mp h with rfl | h
      · apply blocked_of_done
        simp [run_op, complete_kernel_loopcheck, complete, hd, UINT_MAX]
      · exact ih _ h
    · exact blocked_of_done HZ _ l hd

/-- An acknowledgment delivered while the work function is blocked releases the wait
before the timeout. -/
theorem wait_for_completion_timeout_of_ack (HZ : Nat) (env : TickEnv) (t : Nat)
    (l : wcn_loopcheck) (h : Op.ack ∈ env.during_wait) :
    (wait_for_completion_timeout HZ env t l).1 ≠ 0 := by
  have hb := blocked_of_ack HZ env.during_wait l h
  simp only [wait_for_completion_timeout, hb, if_true, ne_eq]
  omega

/-- The work function on its timeout path. -/
theorem loopcheck_work_queue_timeout (HZ : Nat) (env : TickEnv) (l : wcn_loopcheck)
    (hopen : test_bit WCN_LOOPCHECK_OPEN l.status = true)
    (hrx : env.rx_total_cnt_a = env.rx_total_cnt_b)
    (hwait : (wait_for_completion_timeout HZ env (4 * HZ) l).1 = 0)
    (hstill : test_bit WCN_LOOPCHECK_OPEN
      (wait_for_completion_timeout HZ env (4 * HZ) l).2.status = true) :
    loopcheck_work_queue HZ env l =
      (let lw := (wait_for_completion_timeout HZ env (4 * HZ) l).2
       let lf := { lw with status := set_bit WCN_LOOPCHECK_FAIL lw.status }
       let lr := run_ops HZ env.during_report lf
       ({ lr with status := clear_bit WCN_LOOPCHECK_FAIL lr.status },
        [.loopcheck_send (probe env) (strlen (probe env))
            (loopcheck_send env.send (probe env) (strlen (probe env))).1,
         .wait_for_completion_timeout (4 * HZ) 0,
         .mdbg_assert_interface "WCN loopcheck erro!" (set_bit WCN_LOOPCHECK_FAIL lw.status)])) := by
  simp only [loopcheck_work_queue, hopen, hrx, hstill, hwait]
  simp

/-- The work function on its acknowledged path. -/
theorem loopcheck_work_queue_acked (HZ : Nat) (env : TickEnv) (l : wcn_loopcheck)
    (hopen : test_bit WCN_LOOPCHECK_OPEN l.status = true)
    (hrx : env.rx_total_cnt_a = env.rx_total_cnt_b)
    (hwait : (wait_for_completion_timeout HZ env (4 * HZ) l).1 ≠ 0)
    (hstill : test_bit WCN_LOOPCHECK_OPEN
      (wait_for_completion_timeout HZ env (4 * HZ) l).2.status = true) :
    loopcheck_work_queue HZ env l =
      (let lw := (wait_for_completion_timeout HZ env (4 * HZ) l).2
       ({ lw with work := (queue_delayed_work lw.work (LOOPCHECK_TIMER_INTERVAL * HZ)).2 },
        [.loopcheck_send (probe env) (strlen (probe env))
            (loopcheck_send env.send (probe env) (strlen (probe env))).1,
         .wait_for_completion_timeout (4 * HZ)
            (wait_for_completion_timeout HZ env (4 * HZ) l).1,
         .queue_delayed_work (LOOPCHECK_TIMER_INTERVAL * HZ)
            (queue_delayed_work lw.work (LOOPCHECK_TIMER_INTERVAL * HZ)).1])) := by
  simp only [loopcheck_work_queue, hopen, hrx, hstill]
  simp [hwait]

/-- The work function when the OPEN bit is found clear after the wait. -/
theorem loopcheck_work_queue_stopped (HZ : Nat) (env : TickEnv) (l : wcn_loopcheck)
    (hopen : test_bit WCN_LOOPCHECK_OPEN l.status = true)
    (hrx : env.rx_total_cnt_a = env.rx_total_cnt_b)
    (hstill : test_bit WCN_LOOPCHECK_OPEN
      (wait_for_completion_timeout HZ env (4 * HZ) l).2.status = false) :
    loopcheck_work_queue HZ env l =
      ((wait_for_completion_timeout HZ env (4 * HZ) l).2,
        [.loopcheck_send (probe env) (strlen (probe env))
            (loopcheck_send env.send (probe env) (strlen (probe env))).1,
         .wait_for_completion_timeout (4 * HZ)
            (wait_for_completion_timeout HZ env (4 * HZ) l).1]) := by
  simp only [loopcheck_work_queue, hopen, hrx, hstill]
  simp

/-- The work function when the two RX samples differ. -/
theorem loopcheck_work_queue_traffic (HZ : Nat) (env : TickEnv) (l : wcn_loopcheck)
    (hopen : test_bit WCN_LOOPCHECK_OPEN l.status = true)
    (hrx : env.rx_total_cnt_a ≠ env.rx_total_cnt_b) :
    loopcheck_work_queue HZ env l =
      ({ l with work := (queue_delayed_work l.work (LOOPCHECK_TIMER_INTERVAL * HZ)).2 },
        [.queue_delayed_work (LOOPCHECK_TIMER_INTERVAL * HZ)
            (queue_delayed_work l.work (LOOPCHECK_TIMER_INTERVAL * HZ)).1]) := by
  simp [loopcheck_work_queue, hopen, hrx]

/-- The work function when the OPEN bit is clear at entry. -/
theorem loopcheck_work_queue_closed (HZ : Nat) (env : TickEnv) (l : wcn_loopcheck)
    (hopen : test_bit WCN_LOOPCHECK_OPEN l.status = false) :
    loopcheck_work_queue HZ env l = (l, []) := by
  simp [loopcheck_work_queue, hopen]

theorem queue_delayed_work_idle (w : delayed_work) (d : Nat)
    (ht : w.timer = none) (hc : w.canceling = false) :
    queue_delayed_work w d = (true, { w with timer := some d }) := by
  simp [queue_delayed_work, ht, hc]

/-! ## Formatting lemmas -/

theorem put_dec_length (fuel n : Nat) : (put_dec fuel n).length ≤ fuel := by
  induction fuel generalizing n with
  | zero => simp [put_dec]
  | succ k ih =>
    unfold put_dec
    split
    · simp
    · simpa using ih (n / 10)

theorem digitChar_eq (d : Nat) (h : d < 10) : Nat.digitChar d = Char.ofNat (48 + d) := by
  interval_cases d <;> rfl

theorem toDigitsCore_eq_put_dec (f : Nat) : ∀ (fuel n : Nat) (ds : List Char),
    n < f → n < 10 ^ fuel → 0 < fuel →
    Nat.toDigitsCore 10 f n ds = (put_dec fuel n).reverse ++ ds := by
  induction f with
  | zero => intro fuel n ds h; omega
  | succ f ih =>
    intro fuel n ds hf hn hfuel
    obtain ⟨k, rfl⟩ : ∃ k, fuel = k + 1 := ⟨fuel - 1, by omega⟩
    unfold Nat.toDigitsCore put_dec
    simp only [digitChar_eq (n % 10) (Nat.mod_lt _ (by decide))]
    by_cases h0 : n / 10 = 0
    · simp [h0]
    · simp only [h0, if_false]
      have hk : 0 < k := by
        rcases k with _ | k
        · simp at hn; omega
        · omega
      have h1 : n / 10 < 10 ^ k := by
        rw [Nat.div_lt_iff_lt_mul (by decide)]
        rw [pow_succ] at hn; exact hn
      rw [ih k (n / 10) _ (by omega) h1 hk]
      simp

theorem fmt_llu_eq_repr (n : Nat) (h : n < 2 ^ 64) : fmt_llu n = (Nat.repr n).data := by
  unfold fmt_llu Nat.repr Nat.toDigits
  rw [Nat.mod_eq_of_lt h, toDigitsCore_eq_put_dec (n + 1) 20 n [] (by omega) (by omega) (by decide)]
  simp [List.asString]

theorem put_dec_ne_nul (fuel n : Nat) : ∀ c ∈ put_dec fuel n, c ≠ Char.ofNat 0 := by
  induction fuel generalizing n with
  | zero => simp [put_dec]
  | succ k ih =>
    intro c hc
    unfold put_dec at hc
    have hd : ∀ d, d < 10 → Char.ofNat (48 + d) ≠ Char.ofNat 0 := by
      intro d hd; interval_cases d <;> decide
    rcases List.mem_cons.mp hc with rfl | hc
    · exact hd _ (Nat.mod_lt _ (by decide))
    · split at hc
      · simp at hc
      · exact ih _ c hc

theorem fmt_llu_length (n : Nat) : (fmt_llu n).length ≤ 20 := by
  simp [fmt_llu, put_dec_length]

theorem loopcheck_fmt_length (tx boot : Nat) : (loopcheck_fmt tx boot).length ≤ 56 := by
  have h1 := fmt_llu_length tx
  have h2 := fmt_llu_length boot
  simp [loopcheck_fmt]
  omega

theorem loopcheck_fmt_ne_nul (tx boot : Nat) : ∀ c ∈ loopcheck_fmt tx boot, c ≠ Char.ofNat 0 := by
  intro c hc
  simp only [loopcheck_fmt, List.mem_append, fmt_llu, List.mem_reverse] at hc
  rcases hc with (((hc | hc) | hc) | hc) | hc
  · revert c; decide
  · exact put_dec_ne_nul _ _ c hc
  · revert c; decide
  · exact put_dec_ne_nul _ _ c hc
  · revert c; decide

theorem probe_eq (env : TickEnv) :
    probe env = loopcheck_fmt (env.local_clock % 2 ^ 64 / 1000000)
      (env.marlin_bootup_time % 2 ^ 64 / 1000000) := by
  simp only [probe, snprintf, MARLIN_64B_NS_TO_32B_MS]
  apply List.take_of_length_le
  have := loopcheck_fmt_length (env.local_clock % 2 ^ 64 / 1000000)
      (env.marlin_bootup_time % 2 ^ 64 / 1000000)
  omega

theorem strlen_probe (env : TickEnv) : strlen (probe env) = (probe env).length := by
  unfold strlen
  congr 1
  rw [List.takeWhile_eq_self_iff]
  intro c hc
  rw [probe_eq] at hc
  simpa using loopcheck_fmt_ne_nul _ _ c hc

theorem put_dec_getLast (fuel : Nat) : ∀ n, 0 < n → n < 10 ^ fuel →
    ∃ d, 0 < d ∧ d < 10 ∧ (put_dec fuel n).getLast? = some (Char.ofNat (48 + d)) := by
  induction fuel with
  | zero => intro n h0 h1; simp at h1; omega
  | succ k ih =>
    intro n h0 h1
    unfold put_dec
    by_cases h : n / 10 = 0
    · refine ⟨n % 10, ?_, Nat.mod_lt _ (by decide), by simp [h]⟩
      omega
    · have h2 : n / 10 < 10 ^ k := by
        rw [Nat.div_lt_iff_lt_mul (by decide)]
        rw [pow_succ] at h1; exact h1
      obtain ⟨d, hd0, hd1, hd⟩ := ih (n / 10) (by omega) h2
      refine ⟨d, hd0, hd1, ?_⟩
      simp only [h, if_false]
      rw [List.getLast?_cons, hd]
      rfl

theorem fmt_llu_head (n : Nat) (h0 : 0 < n) (h : n < 2 ^ 64) :
    (fmt_llu n).head? ≠ some '0' := by
  obtain ⟨d, hd0, hd1, hd⟩ := put_dec_getLast 20 n h0 (by omega)
  unfold fmt_llu
  rw [Nat.mod_eq_of_lt h, List.head?_reverse, hd]
  interval_cases d <;> decide

theorem loopcheck_fmt_eq_wire_format (tx boot : Nat) (ht : tx < 2 ^ 64) (hb : boot < 2 ^ 64) :
    loopcheck_fmt tx boot = wire_format tx boot := by
  simp [loopcheck_fmt, wire_format, decimal, fmt_llu_eq_repr tx ht, fmt_llu_eq_repr boot hb]

/-- Whenever the work function gets past the comparison of the RX samples, its first
call is the send of the probe built at its top. -/
theorem loopcheck_work_queue_sends (HZ : Nat) (env : TickEnv) (l : wcn_loopcheck)
    (hopen : test_bit WCN_LOOPCHECK_OPEN l.status = true)
    (hrx : env.rx_total_cnt_a = env.rx_total_cnt_b) :
    ∃ rest, (loopcheck_work_queue HZ env l).2 =
      .loopcheck_send (probe env) (strlen (probe env))
        (loopcheck_send env.send (probe env) (strlen (probe env))).1 :: rest := by
  cases hstill : test_bit WCN_LOOPCHECK_OPEN
      (wait_for_completion_timeout HZ env (4 * HZ) l).2.status
  · rw [loopcheck_work_queue_stopped HZ env l hopen hrx hstill]
    exact ⟨_, rfl⟩
  · by_cases hwait : (wait_for_completion_timeout HZ env (4 * HZ) l).1 = 0
    · rw [loopcheck_work_queue_timeout HZ env l hopen hrx hwait hstill]
      exact ⟨_, rfl⟩
    · rw [loopcheck_work_queue_acked HZ env l hopen hrx hwait hstill]
      exact ⟨_, rfl⟩

/-! ## Preservation of the invariants -/

theorem Quiet_run_op (HZ : Nat) (o : Op) (l : wcn_loopcheck) (h : Quiet l) :
    Quiet (run_op HZ o l) := by
  obtain ⟨hi, hf, hr, hc, hp⟩ := h
  cases o
  · show Quiet (start_loopcheck HZ l)
    cases ho : test_bit WCN_LOOPCHECK_OPEN l.status
    · rw [start_loopcheck_idle HZ l hi ho]
      refine ⟨?_, ?_, ?_, ?_, ?_⟩
      · simp [test_bit_set_bit, hi]
      · simp [test_bit_set_bit, hf]; decide
      · simp only [queue_delayed_work]; split <;> simp [hr]
      · simp only [queue_delayed_work]; split <;> simp [hc]
      · intro _; simp [test_bit_set_bit]
    · rw [start_loopcheck_open HZ l ho]; exact ⟨hi, hf, hr, hc, hp⟩
  · show Quiet (stop_loopcheck l)
    cases ho : test_bit WCN_LOOPCHECK_OPEN l.status
    · rw [stop_loopcheck_not_open l ho]; exact ⟨hi, hf, hr, hc, hp⟩
    · rw [stop_loopcheck_running l hi ho hf]
      refine ⟨?_, ?_, ?_, ?_, ?_⟩
      · simp [test_bit_clear_bit, hi]; decide
      · simp [test_bit_clear_bit, hf]
      · simp [cancel_delayed_work_sync, hr]
      · simp [cancel_delayed_work_sync, hr]
      · simp [cancel_delayed_work_sync]
  · exact ⟨hi, hf, hr, hc, hp⟩

theorem Waiting_run_op (HZ : Nat) (o : Op) (l : wcn_loopcheck) (h : Waiting l) :
    Waiting (run_op HZ o l) := by
  obtain ⟨hi, hf, hr, ht, hc⟩ := h
  cases o
  · show Waiting (start_loopcheck HZ l)
    cases ho : test_bit WCN_LOOPCHECK_OPEN l.status
    · rw [start_loopcheck_idle HZ l hi ho]
      have hq : queue_delayed_work l.work HZ = (false, l.work) := by
        simp [queue_delayed_work, hc ho]
      refine ⟨?_, ?_, ?_, ?_, ?_⟩
      · simp [test_bit_set_bit, hi]
      · simp [test_bit_set_bit, hf]; decide
      · simp [hq, hr]
      · simp [hq, ht]
      · intro h; simp [test_bit_set_bit] at h
    · rw [start_loopcheck_open HZ l ho]; exact ⟨hi, hf, hr, ht, hc⟩
  · show Waiting (stop_loopcheck l)
    cases ho : test_bit WCN_LOOPCHECK_OPEN l.status
    · rw [stop_loopcheck_not_open l ho]; exact ⟨hi, hf, hr, ht, hc⟩
    · rw [stop_loopcheck_running l hi ho hf]
      refine ⟨?_, ?_, ?_, ?_, ?_⟩
      · simp [test_bit_clear_bit, hi]; decide
      · simp [test_bit_clear_bit, hf]
      · simp [cancel_delayed_work_sync, hr]
      · simp [cancel_delayed_work_sync]
      · intro _; simp [cancel_delayed_work_sync, hr]
  · exact ⟨hi, hf, hr, ht, hc⟩

theorem Waiting_run_ops (HZ : Nat) (ops : List Op) (l : wcn_loopcheck) (h : Waiting l) :
    Waiting (run_ops HZ ops l) := by
  induction ops generalizing l with
  | nil => exact h
  | cons o ops ih => exact ih _ (Waiting_run_op HZ o l h)

theorem Waiting_blocked (HZ : Nat) (ops : List Op) (l : wcn_loopcheck) (h : Waiting l) :
    Waiting (blocked HZ ops l).2.1 := by
  induction ops generalizing l with
  | nil => unfold blocked; split <;> exact h
  | cons o ops ih =>
    unfold blocked
    split
    · exact h
    · exact ih _ (Waiting_run_op HZ o l h)

theorem Waiting_wait (HZ : Nat) (env : TickEnv) (t : Nat) (l : wcn_loopcheck) (h : Waiting l) :
    Waiting (wait_for_completion_timeout HZ env t l).2 :=
  Waiting_run_ops HZ _ _ (Waiting_blocked HZ _ _ h)

theorem Reporting_run_ops (HZ : Nat) (ops : List Op) (l : wcn_loopcheck) (h : Reporting l)
    (hs : Op.start ∉ ops) : Reporting (run_ops HZ ops l) := by
  induction ops generalizing l with
  | nil => exact h
  | cons o ops ih =>
    rw [run_ops_cons]
    apply ih _ _ (fun hm => hs (List.mem_cons_of_mem _ hm))
    obtain ⟨hi, hf, hr, ht⟩ := h
    cases o
    · exact absurd (List.mem_cons_self _ _) hs
    · show Reporting (stop_loopcheck l)
      cases ho : test_bit WCN_LOOPCHECK_OPEN l.status
      · rw [stop_loopcheck_not_open l ho]; exact ⟨hi, hf, hr, ht⟩
      · rw [stop_loopcheck_failing l hi ho hf]
        refine ⟨?_, ?_, hr, ht⟩
        · simp [test_bit_clear_bit, hi]; decide
        · simp [test_bit_clear_bit, hf]; decide
    · exact ⟨hi, hf, hr, ht⟩

/-- What the work function leaves when it starts from a state around its wait and no
`start_loopcheck` is called during the report. -/
theorem loopcheck_work_queue_Waiting (HZ : Nat) (env : TickEnv) (l : wcn_loopcheck)
    (h : Waiting l) (hs : Op.start ∉ env.during_report) :
    test_bit WCN_LOOPCHECK_INIT (loopcheck_work_queue HZ env l).1.status = true ∧
    test_bit WCN_LOOPCHECK_FAIL (loopcheck_work_queue HZ env l).1.status = false ∧
    ((loopcheck_work_queue HZ env l).1.work.timer.isSome = true →
      test_bit WCN_LOOPCHECK_OPEN (loopcheck_work_queue HZ env l).1.status = true) := by
  cases hopen : test_bit WCN_LOOPCHECK_OPEN l.status
  · rw [loopcheck_work_queue_closed HZ env l hopen]
    exact ⟨h.1, h.2.1, by simp [h.2.2.2.1]⟩
  · by_cases hrx : env.rx_total_cnt_a = env.rx_total_cnt_b
    · have hw := Waiting_wait HZ env (4 * HZ) l h
      cases hstill : test_bit WCN_LOOPCHECK_OPEN
          (wait_for_completion_timeout HZ env (4 * HZ) l).2.status
      · rw [loopcheck_work_queue_stopped HZ env l hopen hrx hstill]
        exact ⟨hw.1, hw.2.1, by simp [hw.2.2.2.1]⟩
      · by_cases hwait : (wait_for_completion_timeout HZ env (4 * HZ) l).1 = 0
        · rw [loopcheck_work_queue_timeout HZ env l hopen hrx hwait hstill]
          have hr : Reporting { (wait_for_completion_timeout HZ env (4 * HZ) l).2 with
              status := set_bit WCN_LOOPCHECK_FAIL
                (wait_for_completion_timeout HZ env (4 * HZ) l).2.status } := by
            refine ⟨?_, ?_, hw.2.2.1, hw.2.2.2.1⟩
            · simp [test_bit_set_bit, hw.1]
            · simp [test_bit_set_bit]
          have hr2 := Reporting_run_ops HZ env.during_report _ hr hs
          refine ⟨?_, ?_, ?_⟩
          · simp only [test_bit_clear_bit, hr2.1]; decide
          · simp [test_bit_clear_bit]
          · simp [hr2.2.2.2]
        · rw [loopcheck_work_queue_acked HZ env l hopen hrx hwait hstill]
          exact ⟨hw.1, hw.2.1, fun _ => hstill⟩
    · rw [loopcheck_work_queue_traffic HZ env l hopen hrx]
      exact ⟨h.1, h.2.1, fun _ => hopen⟩

theorem Quiet_step (HZ : Nat) (a : Action) (l : wcn_loopcheck) (h : Quiet l)
    (hs : no_start_in_report a = true) : Quiet (step HZ a l) := by
  cases a with
  | call o => exact Quiet_run_op HZ o l h
  | tick env =>
    show Quiet (if l.work.timer.isSome then (worker_run HZ env l).1 else l)
    split
    next hp =>
      have hs' : Op.start ∉ env.during_report := by
        simpa [no_start_in_report] using hs
      have hopen : test_bit WCN_LOOPCHECK_OPEN l.status = true := h.2.2.2.2 hp
      have hw : Waiting { l with work := { l.work with timer := none, running := true } } :=
        ⟨h.1, h.2.1, rfl, rfl, fun ho => by
          have ho' : test_bit WCN_LOOPCHECK_OPEN l.status = false := ho
          rw [hopen] at ho'; cases ho'⟩
      have := loopcheck_work_queue_Waiting HZ env _ hw hs'
      exact ⟨this.1, this.2.1, rfl, rfl, this.2.2⟩
    next => exact h

theorem Quiet_run (HZ : Nat) (acts : List Action) (l : wcn_loopcheck) (h : Quiet l)
    (hs : ∀ a ∈ acts, no_start_in_report a = true) : Quiet (run HZ acts l) := by
  induction acts generalizing l with
  | nil => exact h
  | cons a acts ih =>
    exact ih _ (Quiet_step HZ a l h (hs a (List.mem_cons_self _ _)))
      (fun b hb => hs b (List.mem_cons_of_mem _ hb))

theorem Quiet_init (l0 : wcn_loopcheck) : Quiet (loopcheck_init true l0).2 := by
  refine ⟨?_, ?_, rfl, rfl, ?_⟩
  · show test_bit WCN_LOOPCHECK_INIT (set_bit WCN_LOOPCHECK_INIT 0) = true
    decide
  · show test_bit WCN_LOOPCHECK_FAIL (set_bit WCN_LOOPCHECK_INIT 0) = false
    decide
  · intro h; simp [loopcheck_init, INIT_DELAYED_WORK] at h

theorem Stopped_step (HZ : Nat) (a : Action) (l : wcn_loopcheck) (h : Stopped l)
    (hs : a ≠ Action.call Op.start) : step HZ a l = l ∨
      (Stopped (step HZ a l) ∧ (step HZ a l).completion = complete l.completion) := by
  cases a with
  | call o =>
    cases o
    · exact absurd rfl hs
    · exact Or.inl (stop_loopcheck_not_open l h.1)
    · exact Or.inr ⟨h, rfl⟩
  | tick env =>
    left
    show (if l.work.timer.isSome then (worker_run HZ env l).1 else l) = l
    simp [h.2]

theorem Stopped_run (HZ : Nat) (acts : List Action) (l : wcn_loopcheck) (h : Stopped l)
    (hs : ∀ a ∈ acts, a ≠ Action.call Op.start) : Stopped (run HZ acts l) := by
  induction acts generalizing l with
  | nil => exact h
  | cons a acts ih =>
    have ha := hs a (List.mem_cons_self _ _)
    have h' : Stopped (step HZ a l) := by
      rcases Stopped_step HZ a l h ha with e | e
      · rw [e]; exact h
      · exact e.1
    exact ih _ h' (fun b hb => hs b (List.mem_cons_of_mem _ hb))

/-- The result of `loopcheck_send` has no influence on the state the work function
leaves. -/
theorem loopcheck_work_queue_send_irrelevant (HZ : Nat) (env : TickEnv) (bus : SendEnv)
    (l : wcn_loopcheck) :
    (loopcheck_work_queue HZ { env with send := bus } l).1 = (loopcheck_work_queue HZ env l).1 := by
  have hw : ∀ t, wait_for_completion_timeout HZ { env with send := bus } t l
      = wait_for_completion_timeout HZ env t l := fun t => rfl
  simp only [loopcheck_work_queue, hw]
  split
  · rfl
  · split
    · split <;> [rfl; (split <;> rfl)]
    · rfl

/-! ## The claims -/

/-- C1 (timeout path). In every state with OPEN set, when the two RX samples are
equal and the wait returns 0 with OPEN still set, the work function makes exactly
three calls: the send, the wait, and one call of `mdbg_assert_interface` with the
reason "WCN loopcheck erro!"; FAIL is set in the status word at that call and clear
when the work function returns; no call of `queue_delayed_work` is made. -/
theorem tick_timeout_reports_once (HZ : Nat) (env : TickEnv) (l : wcn_loopcheck)
    (hopen : test_bit WCN_LOOPCHECK_OPEN l.status = true)
    (hrx : env.rx_total_cnt_a = env.rx_total_cnt_b)
    (hwait : (wait_for_completion_timeout HZ env (4 * HZ) l).1 = 0)
    (hstill : test_bit WCN_LOOPCHECK_OPEN
      (wait_for_completion_timeout HZ env (4 * HZ) l).2.status = true) :
    (∃ buf len ret st,
      (loopcheck_work_queue HZ env l).2 =
        [.loopcheck_send buf len ret, .wait_for_completion_timeout (4 * HZ) 0,
         .mdbg_assert_interface "WCN loopcheck erro!" st] ∧
      test_bit WCN_LOOPCHECK_FAIL st = true) ∧
    test_bit WCN_LOOPCHECK_FAIL (loopcheck_work_queue HZ env l).1.status = false ∧
    (∀ d q, Call.queue_delayed_work d q ∉ (loopcheck_work_queue HZ env l).2) := by
  rw [loopcheck_work_queue_timeout HZ env l hopen hrx hwait hstill]
  refine ⟨⟨_, _, _, _, rfl, ?_⟩, ?_, ?_⟩
  · simp [test_bit_set_bit]
  · simp [test_bit_clear_bit]
  · intro d q h
    simp at h

theorem tick_timeout_reports_once_witness :
    (loopcheck_work_queue 100 sample_env sample_in_tick).2 =
        [.loopcheck_send "at+loopcheck=1000,500\r\n".data 23 0,
         .wait_for_completion_timeout 400 0,
         .mdbg_assert_interface "WCN loopcheck erro!" 14] ∧
    ((∃ buf len ret st,
      (loopcheck_work_queue 100 sample_env sample_in_tick).2 =
        [.loopcheck_send buf len ret, .wait_for_completion_timeout (4 * 100) 0,
         .mdbg_assert_interface "WCN loopcheck erro!" st] ∧
      test_bit WCN_LOOPCHECK_FAIL st = true) ∧
    test_bit WCN_LOOPCHECK_FAIL (loopcheck_work_queue 100 sample_env sample_in_tick).1.status
      = false ∧
    (∀ d q, Call.queue_delayed_work d q ∉ (loopcheck_work_queue 100 sample_env sample_in_tick).2)) :=
  ⟨by decide,
   tick_timeout_reports_once 100 sample_env sample_in_tick (by decide) (by decide) (by decide)
    (by decide)⟩

/-- C2 (acknowledged path). In every state with OPEN set, when the two RX samples are
equal, `complete_kernel_loopcheck` is called while the work function is blocked in
its wait (before the timeout) and OPEN is still set after the wait, the wait returns
a non-zero value and the work function makes exactly three calls: the send, the
wait, and one `queue_delayed_work` with delay `LOOPCHECK_TIMER_INTERVAL * HZ` = 5 s;
`mdbg_assert_interface` is not called, the FAIL bit is as it was at entry, and when
the work item is neither pending nor being cancelled at that point the tick is
pending with that delay afterwards. -/
theorem tick_acked_requeues (HZ : Nat) (env : TickEnv) (l : wcn_loopcheck)
    (hopen : test_bit WCN_LOOPCHECK_OPEN l.status = true)
    (hrx : env.rx_total_cnt_a = env.rx_total_cnt_b)
    (hack : Op.ack ∈ env.during_wait)
    (hstill : test_bit WCN_LOOPCHECK_OPEN
      (wait_for_completion_timeout HZ env (4 * HZ) l).2.status = true) :
    (∃ buf len ret timeleft queued, timeleft ≠ 0 ∧
      (loopcheck_work_queue HZ env l).2 =
        [.loopcheck_send buf len ret, .wait_for_completion_timeout (4 * HZ) timeleft,
         .queue_delayed_work (5 * HZ) queued]) ∧
    (∀ reason st, Call.mdbg_assert_interface reason st ∉ (loopcheck_work_queue HZ env l).2) ∧
    test_bit WCN_LOOPCHECK_FAIL (loopcheck_work_queue HZ env l).1.status
      = test_bit WCN_LOOPCHECK_FAIL l.status ∧
    ((wait_for_completion_timeout HZ env (4 * HZ) l).2.work.timer = none →
      (wait_for_completion_timeout HZ env (4 * HZ) l).2.work.canceling = false →
      (loopcheck_work_queue HZ env l).1.work.timer = some (5 * HZ)) := by
  have hwait := wait_for_completion_timeout_of_ack HZ env (4 * HZ) l hack
  rw [loopcheck_work_queue_acked HZ env l hopen hrx hwait hstill]
  refine ⟨⟨_, _, _, _, _, hwait, rfl⟩, ?_, ?_, ?_⟩
  · intro reason st h
    simp at h
  · exact wait_for_completion_timeout_bit HZ env (4 * HZ) l _ (by decide)
  · intro ht hc
    simp [queue_delayed_work_idle _ _ ht hc, LOOPCHECK_TIMER_INTERVAL]

theorem tick_acked_requeues_witness :
    (loopcheck_work_queue 100 sample_env_acked sample_in_tick).2 =
      [.loopcheck_send "at+loopcheck=1000,500\r\n".data 23 0,
       .wait_for_completion_timeout 400 200, .queue_delayed_work 500 true] ∧
    (loopcheck_work_queue 100 sample_env_acked sample_in_tick).1.work.timer = some (5 * 100) :=
  ⟨by decide,
   (tick_acked_requeues 100 sample_env_acked sample_in_tick
      (by decide) (by decide) (by decide) (by decide)).2.2.2 (by decide) (by decide)⟩

/-- C3 (suppression). In every state with OPEN set, when the second RX sample differs
from the first, the only call the work function makes is `queue_delayed_work` with
delay 5 s: nothing is sent, the completion is not waited on and is unchanged,
`mdbg_assert_interface` is not called, the status word is unchanged, and when the
work item is neither pending nor being cancelled the tick is pending with delay 5 s
afterwards. -/
theorem tick_traffic_suppresses (HZ : Nat) (env : TickEnv) (l : wcn_loopcheck)
    (hopen : test_bit WCN_LOOPCHECK_OPEN l.status = true)
    (hrx : env.rx_total_cnt_b ≠ env.rx_total_cnt_a) :
    (∃ queued, (loopcheck_work_queue HZ env l).2 = [.queue_delayed_work (5 * HZ) queued]) ∧
    (loopcheck_work_queue HZ env l).1.completion = l.completion ∧
    (loopcheck_work_queue HZ env l).1.status = l.status ∧
    (l.work.timer = none → l.work.canceling = false →
      (loopcheck_work_queue HZ env l).1.work.timer = some (5 * HZ)) := by
  rw [loopcheck_work_queue_traffic HZ env l hopen (fun h => hrx h.symm)]
  refine ⟨⟨_, rfl⟩, rfl, rfl, ?_⟩
  intro ht hc
  simp [queue_delayed_work_idle _ _ ht hc, LOOPCHECK_TIMER_INTERVAL]

theorem tick_traffic_suppresses_witness :
    loopcheck_work_queue 100 sample_env_traffic
        sample_in_tick =
      ({ sample_in_tick with work := { timer := some 500, running := true, canceling := false } },
       [.queue_delayed_work 500 true]) ∧
    (loopcheck_work_queue 100 sample_env_traffic
        sample_in_tick).1.work.timer = some (5 * 100) :=
  ⟨by decide,
   (tick_traffic_suppresses 100 sample_env_traffic
      sample_in_tick (by decide) (by decide)).2.2.2
      (by decide) (by decide)⟩

/-- C4 (wire format). For all 64-bit nanosecond readings `t` of the local clock and `b`
of the coprocessor boot time, the first call of a work function that finds OPEN set
and equal RX samples is `loopcheck_send` with exactly the characters
`"at+loopcheck=" ++ decimal (t / 1000000) ++ "," ++ decimal (b / 1000000) ++ "\r\n"`
and with their number as the length (no NUL is counted); a decimal numeral of a
non-zero 64-bit number does not start with `'0'`, and the numeral of 0 is `"0"`. -/
theorem probe_wire_format (HZ : Nat) (env : TickEnv) (l : wcn_loopcheck)
    (hopen : test_bit WCN_LOOPCHECK_OPEN l.status = true)
    (hrx : env.rx_total_cnt_a = env.rx_total_cnt_b)
    (ht : env.local_clock < 2 ^ 64) (hb : env.marlin_bootup_time < 2 ^ 64) :
    (∃ ret rest, (loopcheck_work_queue HZ env l).2 =
      .loopcheck_send
        (wire_format (env.local_clock / 1000000) (env.marlin_bootup_time / 1000000))
        (wire_format (env.local_clock / 1000000) (env.marlin_bootup_time / 1000000)).length
        ret :: rest) ∧
    (∀ n, 0 < n → n < 2 ^ 64 → (decimal n).head? ≠ some '0') ∧
    decimal 0 = ['0'] := by
  refine ⟨?_, ?_, rfl⟩
  · obtain ⟨rest, h⟩ := loopcheck_work_queue_sends HZ env l hopen hrx
    refine ⟨(loopcheck_send env.send (probe env) (strlen (probe env))).1, rest, ?_⟩
    rw [h, strlen_probe, probe_eq, Nat.mod_eq_of_lt ht, Nat.mod_eq_of_lt hb,
      loopcheck_fmt_eq_wire_format _ _ (by omega) (by omega)]
  · intro n h0 hn
    unfold decimal
    rw [← fmt_llu_eq_repr n hn]
    exact fmt_llu_head n h0 hn

theorem probe_wire_format_witness :
    wire_format (1000000000 / 1000000) (500000000 / 1000000) = "at+loopcheck=1000,500\r\n".data ∧
    ∃ ret rest, (loopcheck_work_queue 100 sample_env sample_in_tick).2 =
      .loopcheck_send
        (wire_format (sample_env.local_clock / 1000000) (sample_env.marlin_bootup_time / 1000000))
        (wire_format (sample_env.local_clock / 1000000)
          (sample_env.marlin_bootup_time / 1000000)).length
        ret :: rest :=
  ⟨by decide,
   (probe_wire_format 100 sample_env sample_in_tick (by decide) (by decide) (by decide)
      (by decide)).1⟩

/-- C6 (start idempotence). In every state with OPEN already set `start_loopcheck`
returns the state unchanged (status word, completion, work item); hence a second
`start_loopcheck` changes nothing after a first one, and from an initialized state
with OPEN clear and an idle work item two calls leave the same state as one call,
with the one tick pending with delay HZ. -/
theorem start_idempotent (HZ : Nat) (l : wcn_loopcheck) :
    (test_bit WCN_LOOPCHECK_OPEN l.status = true → start_loopcheck HZ l = l) ∧
    start_loopcheck HZ (start_loopcheck HZ l) = start_loopcheck HZ l ∧
    (test_bit WCN_LOOPCHECK_INIT l.status = true →
      test_bit WCN_LOOPCHECK_OPEN l.status = false →
      l.work.timer = none → l.work.canceling = false →
      (start_loopcheck HZ (start_loopcheck HZ l)).work.timer = some HZ) := by
  have hidem : start_loopcheck HZ (start_loopcheck HZ l) = start_loopcheck HZ l := by
    cases hi : test_bit WCN_LOOPCHECK_INIT l.status
    · rw [start_loopcheck_not_init HZ l hi, start_loopcheck_not_init HZ l hi]
    · cases ho : test_bit WCN_LOOPCHECK_OPEN l.status
      · apply start_loopcheck_open
        rw [start_loopcheck_idle HZ l hi ho]
        simp [test_bit_set_bit]
      · rw [start_loopcheck_open HZ l ho, start_loopcheck_open HZ l ho]
  refine ⟨start_loopcheck_open HZ l, hidem, ?_⟩
  intro hi ho ht hc
  rw [hidem, start_loopcheck_idle HZ l hi ho, queue_delayed_work_idle _ _ ht hc]

theorem start_idempotent_witness :
    start_loopcheck 100 sample_started = sample_started ∧
    (start_loopcheck 100 (start_loopcheck 100 sample_idle)).work.timer = some 100 :=
  ⟨(start_idempotent 100 sample_started).1 (by decide),
   (start_idempotent 100 sample_idle).2.2 (by decide) (by decide) (by decide) (by decide)⟩

/-- C7, the claim as stated fails: while the work function waits for the
acknowledgment, `stop_loopcheck` is called and is still inside
`cancel_delayed_work_sync`, waiting for the work function to finish.  In that state
INIT is set and OPEN is clear; `start_loopcheck` sets OPEN and resets the
completion, but its `queue_delayed_work` queues nothing, so no tick is pending.
The tick in which this happens ends with OPEN set and no tick pending. -/
theorem start_during_cancel_queues_nothing :
    test_bit WCN_LOOPCHECK_INIT (stop_loopcheck sample_in_tick).status = true ∧
    test_bit WCN_LOOPCHECK_OPEN (stop_loopcheck sample_in_tick).status = false ∧
    (stop_loopcheck sample_in_tick).work =
      { timer := none, running := true, canceling := true } ∧
    queue_delayed_work (stop_loopcheck sample_in_tick).work 100 =
      (false, { timer := none, running := true, canceling := true }) ∧
    start_loopcheck 100 (stop_loopcheck sample_in_tick) =
      { status := 6, completion := { done := 0 },
        work := { timer := none, running := true, canceling := true },
        workqueue := true } ∧
    worker_run 100 sample_env_stop_start sample_started =
      ({ status := 6, completion := { done := 0 },
         work := { timer := none, running := false, canceling := false },
         workqueue := true },
       [.loopcheck_send "at+loopcheck=1000,500\r\n".data 23 0,
        .wait_for_completion_timeout 400 400,
        .queue_delayed_work 500 false]) := by
  decide

/-- C7 (start from idle), amended. In every state with INIT set and OPEN clear,
whatever the completion holds, `start_loopcheck` sets OPEN, leaves every other bit
of the status word (INIT and FAIL among them) as it was and resets the completion
to `done = 0`.  When the work item is neither pending nor being cancelled, the
first tick is pending afterwards with delay HZ = 1 s and nothing else of the work
item changed; when it is pending already, or a `cancel_delayed_work_sync` is in
progress, the work item is left as it was and nothing is queued.  In every state
with OPEN clear reached from a successful `loopcheck_init` by calls of
`start_loopcheck`, `stop_loopcheck`, `complete_kernel_loopcheck` and ticks during
whose fatal report `start_loopcheck` is not called, the first tick is queued with
delay HZ. -/
theorem start_from_idle (HZ : Nat) :
    (∀ l : wcn_loopcheck,
      test_bit WCN_LOOPCHECK_INIT l.status = true →
      test_bit WCN_LOOPCHECK_OPEN l.status = false →
      test_bit WCN_LOOPCHECK_OPEN (start_loopcheck HZ l).status = true ∧
      test_bit WCN_LOOPCHECK_INIT (start_loopcheck HZ l).status = true ∧
      test_bit WCN_LOOPCHECK_FAIL (start_loopcheck HZ l).status
        = test_bit WCN_LOOPCHECK_FAIL l.status ∧
      (∀ n, n ≠ WCN_LOOPCHECK_OPEN →
        test_bit n (start_loopcheck HZ l).status = test_bit n l.status) ∧
      (start_loopcheck HZ l).completion.done = 0 ∧
      (l.work.timer = none → l.work.canceling = false →
        (start_loopcheck HZ l).work =
          { timer := some HZ, running := l.work.running, canceling := false }) ∧
      ((l.work.timer.isSome = true ∨ l.work.canceling = true) →
        (start_loopcheck HZ l).work = l.work)) ∧
    (∀ (l0 : wcn_loopcheck) (acts : List Action),
      (∀ a ∈ acts, no_start_in_report a = true) →
      test_bit WCN_LOOPCHECK_OPEN (run HZ acts (loopcheck_init true l0).2).status = false →
      (start_loopcheck HZ (run HZ acts (loopcheck_init true l0).2)).work =
        { timer := some HZ, running := false, canceling := false }) := by
  have key : ∀ l : wcn_loopcheck,
      test_bit WCN_LOOPCHECK_INIT l.status = true →
      test_bit WCN_LOOPCHECK_OPEN l.status = false →
      l.work.timer = none → l.work.canceling = false →
      (start_loopcheck HZ l).work =
        { timer := some HZ, running := l.work.running, canceling := false } := by
    intro l hinit hclosed ht hc
    rw [start_loopcheck_idle HZ l hinit hclosed, queue_delayed_work_idle _ _ ht hc]
    show ({ l.work with timer := some HZ } : delayed_work) = _
    rw [← hc]
  constructor
  · intro l hinit hclosed
    refine ⟨?_, ?_, start_loopcheck_bit HZ l _ (by decide),
      fun n hn => start_loopcheck_bit HZ l n hn, ?_, key l hinit hclosed, ?_⟩
    · rw [start_loopcheck_idle HZ l hinit hclosed]; simp [test_bit_set_bit]
    · rw [start_loopcheck_bit HZ l _ (by decide), hinit]
    · rw [start_loopcheck_idle HZ l hinit hclosed]
    · intro hbusy
      rw [start_loopcheck_idle HZ l hinit hclosed]
      have : (l.work.timer.isSome || l.work.canceling) = true := by
        rcases hbusy with h | h <;> simp [h]
      simp [queue_delayed_work, this]
  · intro l0 acts hs hclosed
    obtain ⟨hi, _, hr, hc, hp⟩ := Quiet_run HZ acts _ (Quiet_init l0) hs
    have ht : (run HZ acts (loopcheck_init true l0).2).work.timer = none := by
      cases htm : (run HZ acts (loopcheck_init true l0).2).work.timer
      · rfl
      · have := hp (by simp [htm])
        rw [hclosed] at this; cases this
    rw [key _ hi hclosed ht hc, hr]

theorem start_from_idle_witness :
    start_loopcheck 100 (stop_loopcheck (complete_kernel_loopcheck sample_started)) =
      { status := 6, completion := { done := 0 },
        work := { timer := some 100, running := false, canceling := false },
        workqueue := true } ∧
    (stop_loopcheck (complete_kernel_loopcheck sample_started)).completion.done = UINT_MAX ∧
    (start_loopcheck 100
      (stop_loopcheck (complete_kernel_loopcheck sample_started))).completion.done = 0 ∧
    (start_loopcheck 100 (stop_loopcheck sample_in_tick)).work
      = (stop_loopcheck sample_in_tick).work ∧
    (start_loopcheck 100
      (run 100 [.call .start, .tick sample_env_acked, .call .ack, .call .stop]
        (loopcheck_init true boot).2)).work =
      { timer := some 100, running := false, canceling := false } :=
  ⟨by decide, by decide,
   ((start_from_idle 100).1 (stop_loopcheck (complete_kernel_loopcheck sample_started))
      (by decide) (by decide)).2.2.2.2.1,
   ((start_from_idle 100).1 (stop_loopcheck sample_in_tick)
      (by decide) (by decide)).2.2.2.2.2.2 (Or.inr (by decide)),
   (start_from_idle 100).2 boot [.call .start, .tick sample_env_acked, .call .ack, .call .stop]
      (by decide) (by decide)⟩

/-- C5, the claim as stated fails: after `loopcheck_init`, `start_loopcheck` and one
tick that times out and during whose fatal report the watchdog is stopped, started
and stopped again, a tick is pending (delay HZ) although OPEN is clear. -/
theorem pending_without_open :
    (run 100 [.call .start, .tick sample_env_restart] sample_idle).work.timer = some 100 ∧
    test_bit WCN_LOOPCHECK_OPEN
      (run 100 [.call .start, .tick sample_env_restart] sample_idle).status = false := by
  decide

/-- C5 (cancellation completeness), amended. In every state reached from a successful
`loopcheck_init` by calls of `start_loopcheck`, `stop_loopcheck`,
`complete_kernel_loopcheck` and ticks during whose fatal report `start_loopcheck` is
not called, a tick is pending only if OPEN is set.  And in every state with INIT and
OPEN set and FAIL clear, `stop_loopcheck` clears OPEN, sets the completion to
`UINT_MAX` (`complete_all`) and leaves no tick pending; from there, as long as
`start_loopcheck` is not called, no sequence of acknowledgments, further stops and
worker runs makes a tick pending or sets OPEN, and a worker run does nothing. -/
theorem cancellation_complete (HZ : Nat) :
    (∀ (l0 : wcn_loopcheck) (acts : List Action),
      (∀ a ∈ acts, no_start_in_report a = true) →
      (run HZ acts (loopcheck_init true l0).2).work.timer.isSome = true →
      test_bit WCN_LOOPCHECK_OPEN (run HZ acts (loopcheck_init true l0).2).status = true) ∧
    (∀ l : wcn_loopcheck,
      test_bit WCN_LOOPCHECK_INIT l.status = true →
      test_bit WCN_LOOPCHECK_OPEN l.status = true →
      test_bit WCN_LOOPCHECK_FAIL l.status = false →
      test_bit WCN_LOOPCHECK_OPEN (stop_loopcheck l).status = false ∧
      (stop_loopcheck l).completion.done = UINT_MAX ∧
      (stop_loopcheck l).work.timer = none ∧
      ∀ acts : List Action, (∀ a ∈ acts, a ≠ Action.call Op.start) →
        (run HZ acts (stop_loopcheck l)).work.timer = none ∧
        test_bit WCN_LOOPCHECK_OPEN (run HZ acts (stop_loopcheck l)).status = false ∧
        ∀ env, step HZ (.tick env) (run HZ acts (stop_loopcheck l))
          = run HZ acts (stop_loopcheck l)) := by
  constructor
  · intro l0 acts hs
    exact (Quiet_run HZ acts _ (Quiet_init l0) hs).2.2.2.2
  · intro l hi ho hf
    have hst : Stopped (stop_loopcheck l) := by
      rw [stop_loopcheck_running l hi ho hf]
      exact ⟨by simp [test_bit_clear_bit], rfl⟩
    refine ⟨hst.1, ?_, hst.2, ?_⟩
    · rw [stop_loopcheck_running l hi ho hf]
    · intro acts hs
      have h := Stopped_run HZ acts _ hst hs
      refine ⟨h.2, h.1, fun env => ?_⟩
      show (if (run HZ acts (stop_loopcheck l)).work.timer.isSome then _ else _) = _
      simp [h.2]

theorem cancellation_complete_witness :
    (run 100 [.call .start, .tick sample_env_acked] sample_idle).work.timer = some 500 ∧
    test_bit WCN_LOOPCHECK_OPEN
      (run 100 [.call .start, .tick sample_env_acked] sample_idle).status = true ∧
    stop_loopcheck sample_started =
      { status := 2, completion := { done := UINT_MAX }, work := INIT_DELAYED_WORK,
        workqueue := true } ∧
    (run 100 [.call .ack, .call .stop, .tick sample_env] (stop_loopcheck sample_started)).work.timer
      = none :=
  ⟨by decide,
   (cancellation_complete 100).1
     { status := 0, completion := { done := 0 }, work := INIT_DELAYED_WORK, workqueue := false }
     [.call .start, .tick sample_env_acked] (by decide) (by decide),
   by decide,
   (((cancellation_complete 100).2 sample_started (by decide) (by decide) (by decide)).2.2.2
     [.call .ack, .call .stop, .tick sample_env] (by decide)).1⟩

/-- C8, the claim as stated fails: an acknowledgment that arrives after
`start_loopcheck` and before the first tick (nobody is waiting) leaves `done = 1`; the
tick that follows, with equal RX samples and no acknowledgment during its own wait,
gets 400 jiffies back from the wait at once, does not call `mdbg_assert_interface`
and queues the next tick. -/
theorem stale_ack_is_credited :
    (complete_kernel_loopcheck sample_started).completion.done = 1 ∧
    sample_env.during_wait = [] ∧ sample_env.after_wait = [] ∧
    worker_run 100 sample_env (complete_kernel_loopcheck sample_started) =
      ({ status := 6, completion := { done := 0 },
         work := { timer := some 500, running := false, canceling := false },
         workqueue := true },
       [.loopcheck_send "at+loopcheck=1000,500\r\n".data 23 0,
        .wait_for_completion_timeout 400 400, .queue_delayed_work 500 true]) := by
  decide

/-- C8 (acknowledgment credit), amended. `complete_kernel_loopcheck` called while
nobody waits is remembered: it adds one to `done` (unless `done` is pinned at
`UINT_MAX`), and the work function does not reset the completion before it waits.
For a tick with OPEN set, equal RX samples and no call from another context around
its wait: if `done` is non-zero when it waits, the wait returns a non-zero value at
once, one completion is consumed, `mdbg_assert_interface` is not called and the next
tick is queued; if `done` is zero, the wait times out and the tick escalates. -/
theorem ack_credit (HZ : Nat) (env : TickEnv) (l : wcn_loopcheck)
    (hopen : test_bit WCN_LOOPCHECK_OPEN l.status = true)
    (hrx : env.rx_total_cnt_a = env.rx_total_cnt_b)
    (hw : env.during_wait = []) (ha : env.after_wait = []) :
    (l.completion.done ≠ UINT_MAX →
      (complete_kernel_loopcheck l).completion.done = l.completion.done + 1) ∧
    (l.completion.done ≠ 0 →
      (∃ buf len ret queued, (loopcheck_work_queue HZ env l).2 =
        [.loopcheck_send buf len ret,
         .wait_for_completion_timeout (4 * HZ) (max 1 (4 * HZ - env.elapsed)),
         .queue_delayed_work (5 * HZ) queued]) ∧
      (loopcheck_work_queue HZ env l).1.completion = consume l.completion) ∧
    (l.completion.done = 0 →
      ∃ buf len ret st, (loopcheck_work_queue HZ env l).2 =
        [.loopcheck_send buf len ret, .wait_for_completion_timeout (4 * HZ) 0,
         .mdbg_assert_interface "WCN loopcheck erro!" st]) := by
  refine ⟨fun h => ?_, fun h => ?_, fun h => ?_⟩
  · simp [complete_kernel_loopcheck, complete, h]
  · have e := wait_for_completion_timeout_credit HZ env (4 * HZ) l h hw ha
    have h1 : (wait_for_completion_timeout HZ env (4 * HZ) l).1 ≠ 0 := by
      rw [e]; simp only [ne_eq]; omega
    have h2 : test_bit WCN_LOOPCHECK_OPEN
        (wait_for_completion_timeout HZ env (4 * HZ) l).2.status = true := by
      rw [e]; exact hopen
    rw [loopcheck_work_queue_acked HZ env l hopen hrx h1 h2, e]
    exact ⟨⟨_, _, _, _, rfl⟩, rfl⟩
  · have e := wait_for_completion_timeout_quiet HZ env (4 * HZ) l h hw ha
    have h1 : (wait_for_completion_timeout HZ env (4 * HZ) l).1 = 0 := by rw [e]
    have h2 : test_bit WCN_LOOPCHECK_OPEN
        (wait_for_completion_timeout HZ env (4 * HZ) l).2.status = true := by
      rw [e]; exact hopen
    rw [loopcheck_work_queue_timeout HZ env l hopen hrx h1 h2]
    exact ⟨_, _, _, _, rfl⟩

theorem ack_credit_witness :
    (complete_kernel_loopcheck sample_in_tick).completion.done = 0 + 1 ∧
    (loopcheck_work_queue 100 sample_env (complete_kernel_loopcheck sample_in_tick)).1.completion
      = consume (complete_kernel_loopcheck sample_in_tick).completion ∧
    ∃ buf len ret st, (loopcheck_work_queue 100 sample_env sample_in_tick).2 =
        [.loopcheck_send buf len ret, .wait_for_completion_timeout (4 * 100) 0,
         .mdbg_assert_interface "WCN loopcheck erro!" st] :=
  ⟨(ack_credit 100 sample_env sample_in_tick (by decide) (by decide) (by decide)
      (by decide)).1 (by decide),
   ((ack_credit 100 sample_env (complete_kernel_loopcheck sample_in_tick) (by decide) (by decide)
      (by decide) (by decide)).2.1 (by decide)).2,
   (ack_credit 100 sample_env sample_in_tick (by decide) (by decide) (by decide)
      (by decide)).2.2 (by decide)⟩

/-- C9, the claim as stated fails: the first tick after `start_loopcheck` times out
and escalates (the reporter is called, nothing is queued); OPEN is still set
afterwards, so the `start_loopcheck` that follows returns at its `test_and_set_bit`
and leaves the state as it is, with no tick pending. -/
theorem start_after_escalation_is_noop :
    worker_run 100 sample_env sample_started =
      ({ status := 6, completion := { done := 0 }, work := INIT_DELAYED_WORK,
         workqueue := true },
       [.loopcheck_send "at+loopcheck=1000,500\r\n".data 23 0,
        .wait_for_completion_timeout 400 0,
        .mdbg_assert_interface "WCN loopcheck erro!" 14]) ∧
    start_loopcheck 100 (worker_run 100 sample_env sample_started).1
      = (worker_run 100 sample_env sample_started).1 ∧
    (start_loopcheck 100 (worker_run 100 sample_env sample_started).1).work.timer = none := by
  decide

/-- C9 (restart after escalation), amended. Take a tick that escalates on an
acknowledgment timeout (INIT and OPEN set, FAIL clear, equal RX samples, `done = 0`,
nobody calling in around the wait).  If nothing stops the watchdog during the
report, OPEN is still set when the tick returns, a following `start_loopcheck`
changes nothing and no tick is pending; `stop_loopcheck` followed by
`start_loopcheck` queues a tick with delay HZ.  If `stop_loopcheck` is called during
the report, OPEN is clear when the tick returns and a following `start_loopcheck`
sets it and queues a tick with delay HZ. -/
theorem restart_after_escalation (HZ : Nat) (env : TickEnv) (l : wcn_loopcheck)
    (hinit : test_bit WCN_LOOPCHECK_INIT l.status = true)
    (hopen : test_bit WCN_LOOPCHECK_OPEN l.status = true)
    (hfail : test_bit WCN_LOOPCHECK_FAIL l.status = false)
    (hrx : env.rx_total_cnt_a = env.rx_total_cnt_b)
    (hdone : l.completion.done = 0)
    (hw : env.during_wait = []) (ha : env.after_wait = []) :
    (∃ buf len ret st, (worker_run HZ env l).2 =
        [.loopcheck_send buf len ret, .wait_for_completion_timeout (4 * HZ) 0,
         .mdbg_assert_interface "WCN loopcheck erro!" st]) ∧
    (env.during_report = [] →
      test_bit WCN_LOOPCHECK_OPEN (worker_run HZ env l).1.status = true ∧
      start_loopcheck HZ (worker_run HZ env l).1 = (worker_run HZ env l).1 ∧
      (worker_run HZ env l).1.work.timer = none ∧
      (start_loopcheck HZ (stop_loopcheck (worker_run HZ env l).1)).work.timer = some HZ) ∧
    (env.during_report = [Op.stop] →
      test_bit WCN_LOOPCHECK_OPEN (worker_run HZ env l).1.status = false ∧
      test_bit WCN_LOOPCHECK_OPEN (start_loopcheck HZ (worker_run HZ env l).1).status = true ∧
      (start_loopcheck HZ (worker_run HZ env l).1).work.timer = some HZ) := by
  have e := fun l' (h : l'.completion.done = 0) =>
    wait_for_completion_timeout_quiet HZ env (4 * HZ) l' h hw ha
  have hbody : ∀ l', test_bit WCN_LOOPCHECK_OPEN l'.status = true → l'.completion.done = 0 →
      loopcheck_work_queue HZ env l' =
        ({ run_ops HZ env.during_report
              { l' with status := set_bit WCN_LOOPCHECK_FAIL l'.status } with
            status := clear_bit WCN_LOOPCHECK_FAIL
              (run_ops HZ env.during_report
                { l' with status := set_bit WCN_LOOPCHECK_FAIL l'.status }).status },
         [.loopcheck_send (probe env) (strlen (probe env))
            (loopcheck_send env.send (probe env) (strlen (probe env))).1,
          .wait_for_completion_timeout (4 * HZ) 0,
          .mdbg_assert_interface "WCN loopcheck erro!" (set_bit WCN_LOOPCHECK_FAIL l'.status)]) := by
    intro l' ho hd
    rw [loopcheck_work_queue_timeout HZ env l' ho hrx (by rw [e l' hd]) (by rw [e l' hd]; exact ho),
      e l' hd]
  have hb := hbody { l with work := { l.work with timer := none, running := true } } hopen hdone
  refine ⟨?_, fun hr => ?_, fun hr => ?_⟩
  · simp only [worker_run, hb]
    exact ⟨_, _, _, _, rfl⟩
  · have h1 : (worker_run HZ env l).1 =
        { l with work := { timer := none, running := false, canceling := false } } := by
      simp only [worker_run, hb, hr]
      simp [run_ops, clear_bit_set_bit _ _ hfail]
    rw [h1]
    refine ⟨hopen, start_loopcheck_open HZ _ hopen, rfl, ?_⟩
    rw [stop_loopcheck_running _ (by exact hinit) (by exact hopen) (by exact hfail),
      start_loopcheck_idle]
    · rfl
    · simp only [test_bit_clear_bit, hinit]; decide
    · simp [test_bit_clear_bit]
  · have hf : test_bit WCN_LOOPCHECK_FAIL (set_bit WCN_LOOPCHECK_FAIL l.status) = true := by
      simp [test_bit_set_bit]
    have hi : test_bit WCN_LOOPCHECK_INIT (set_bit WCN_LOOPCHECK_FAIL l.status) = true := by
      simp [test_bit_set_bit, hinit]
    have ho : test_bit WCN_LOOPCHECK_OPEN (set_bit WCN_LOOPCHECK_FAIL l.status) = true := by
      simp [test_bit_set_bit, hopen]
    have h1 : (worker_run HZ env l).1 =
        { l with
          status := clear_bit WCN_LOOPCHECK_FAIL
            (clear_bit WCN_LOOPCHECK_OPEN (set_bit WCN_LOOPCHECK_FAIL l.status)),
          work := { timer := none, running := false, canceling := false } } := by
      simp only [worker_run, hb, hr]
      simp only [run_ops, List.foldl, run_op]
      rw [stop_loopcheck_failing _ (by exact hi) (by exact ho) (by exact hf)]
    have hc : test_bit WCN_LOOPCHECK_OPEN (worker_run HZ env l).1.status = false := by
      rw [h1]; simp [test_bit_clear_bit]
    have hi' : test_bit WCN_LOOPCHECK_INIT (worker_run HZ env l).1.status = true := by
      rw [h1]; simp only [test_bit_clear_bit, test_bit_set_bit, hinit]; decide
    refine ⟨hc, ?_, ?_⟩
    · rw [start_loopcheck_idle HZ _ hi' hc]; simp [test_bit_set_bit]
    · rw [start_loopcheck_idle HZ _ hi' hc, h1]; rfl

theorem restart_after_escalation_witness :
    start_loopcheck 100 (worker_run 100 sample_env sample_started).1
      = (worker_run 100 sample_env sample_started).1 ∧
    (start_loopcheck 100
      (stop_loopcheck (worker_run 100 sample_env sample_started).1)).work.timer = some 100 ∧
    (start_loopcheck 100
      (worker_run 100 sample_env_stop_in_report sample_started).1).work.timer = some 100 :=
  ⟨((restart_after_escalation 100 sample_env sample_started (by decide) (by decide) (by decide)
      (by decide) (by decide) (by decide) (by decide)).2.1 (by decide)).2.1,
   ((restart_after_escalation 100 sample_env sample_started (by decide) (by decide) (by decide)
      (by decide) (by decide) (by decide) (by decide)).2.1 (by decide)).2.2.2,
   ((restart_after_escalation 100 sample_env_stop_in_report sample_started (by decide)
      (by decide) (by decide) (by decide) (by decide) (by decide) (by decide)).2.2
      (by decide)).2.2⟩

/-- C10, the claim as stated fails: with the module reported inactive
`loopcheck_send` fails with `-EIO`; the tick waits all the same, the wait times out
with OPEN still set, `mdbg_assert_interface` is called and no tick is queued. -/
theorem failed_send_escalates :
    (loopcheck_send sample_env_send_fails.send (probe sample_env_send_fails)
      (strlen (probe sample_env_send_fails))).1 = - EIO ∧
    worker_run 100 sample_env_send_fails sample_started =
      ({ status := 6, completion := { done := 0 }, work := INIT_DELAYED_WORK,
         workqueue := true },
       [.loopcheck_send "at+loopcheck=1000,500\r\n".data 23 (-5),
        .wait_for_completion_timeout 400 0,
        .mdbg_assert_interface "WCN loopcheck erro!" 14]) := by
  decide

/-- C10 (send failure), amended. The value `loopcheck_send` returns is ignored: for
every tick with OPEN set and equal RX samples in which the send fails and OPEN is
still set after the wait, the tick waits as after a successful send; it queues the
next tick (delay 5 s) without calling `mdbg_assert_interface` when the wait returns
a non-zero value, and it escalates when the wait times out.  The state the tick
leaves is the same for every answer of the bus. -/
theorem send_failure_ignored (HZ : Nat) (env : TickEnv) (l : wcn_loopcheck)
    (hopen : test_bit WCN_LOOPCHECK_OPEN l.status = true)
    (hrx : env.rx_total_cnt_a = env.rx_total_cnt_b)
    (hfail : (loopcheck_send env.send (probe env) (strlen (probe env))).1 ≠ 0)
    (hstill : test_bit WCN_LOOPCHECK_OPEN
      (wait_for_completion_timeout HZ env (4 * HZ) l).2.status = true) :
    ((wait_for_completion_timeout HZ env (4 * HZ) l).1 ≠ 0 →
      ∃ buf len ret timeleft queued, ret ≠ 0 ∧
        (loopcheck_work_queue HZ env l).2 =
          [.loopcheck_send buf len ret, .wait_for_completion_timeout (4 * HZ) timeleft,
           .queue_delayed_work (5 * HZ) queued]) ∧
    ((wait_for_completion_timeout HZ env (4 * HZ) l).1 = 0 →
      ∃ buf len ret st, ret ≠ 0 ∧
        (loopcheck_work_queue HZ env l).2 =
          [.loopcheck_send buf len ret, .wait_for_completion_timeout (4 * HZ) 0,
           .mdbg_assert_interface "WCN loopcheck erro!" st]) ∧
    (∀ bus, (loopcheck_work_queue HZ { env with send := bus } l).1
      = (loopcheck_work_queue HZ env l).1) := by
  refine ⟨fun hwait => ?_, fun hwait => ?_,
    fun bus => loopcheck_work_queue_send_irrelevant HZ env bus l⟩
  · rw [loopcheck_work_queue_acked HZ env l hopen hrx hwait hstill]
    exact ⟨_, _, _, _, _, hfail, rfl⟩
  · rw [loopcheck_work_queue_timeout HZ env l hopen hrx hwait hstill]
    exact ⟨_, _, _, _, hfail, rfl⟩

theorem send_failure_ignored_witness :
    (∃ buf len ret st, ret ≠ 0 ∧
      (loopcheck_work_queue 100 sample_env_send_fails sample_in_tick).2 =
        [.loopcheck_send buf len ret, .wait_for_completion_timeout (4 * 100) 0,
         .mdbg_assert_interface "WCN loopcheck erro!" st]) ∧
    (∃ buf len ret timeleft queued, ret ≠ 0 ∧
      (loopcheck_work_queue 100 { sample_env_send_fails with during_wait := [Op.ack] }
          sample_in_tick).2 =
        [.loopcheck_send buf len ret, .wait_for_completion_timeout (4 * 100) timeleft,
         .queue_delayed_work (5 * 100) queued]) :=
  ⟨(send_failure_ignored 100 sample_env_send_fails sample_in_tick (by decide) (by decide)
      (by decide) (by decide)).2.1 (by decide),
   (send_failure_ignored 100 { sample_env_send_fails with during_wait := [Op.ack] }
      sample_in_tick (by decide) (by decide) (by decide) (by decide)).1 (by decide)⟩

/-! ## Further lemmas on the entry points and the flags -/

/-- Effect of `stop_loopcheck` on the OPEN bit: it stays set only when INIT is clear. -/
theorem stop_loopcheck_open_bit (l : wcn_loopcheck) :
    test_bit WCN_LOOPCHECK_OPEN (stop_loopcheck l).status =
      (test_bit WCN_LOOPCHECK_OPEN l.status && !test_bit WCN_LOOPCHECK_INIT l.status) := by
  cases hi : test_bit WCN_LOOPCHECK_INIT l.status
  · rw [stop_loopcheck_not_init l hi]; simp
  · cases ho : test_bit WCN_LOOPCHECK_OPEN l.status
    · rw [stop_loopcheck_not_open l ho, ho]; rfl
    · cases hf : test_bit WCN_LOOPCHECK_FAIL l.status
      · rw [stop_loopcheck_running l hi ho hf]; simp [test_bit_clear_bit]
      · rw [stop_loopcheck_failing l hi ho hf]; simp [test_bit_clear_bit]

/-- With FAIL set `stop_loopcheck` touches nothing but the status word. -/
theorem stop_loopcheck_failing_frame (l : wcn_loopcheck)
    (hf : test_bit WCN_LOOPCHECK_FAIL l.status = true) :
    (stop_loopcheck l).completion = l.completion ∧ (stop_loopcheck l).work = l.work ∧
    (stop_loopcheck l).workqueue = l.workqueue := by
  cases hi : test_bit WCN_LOOPCHECK_INIT l.status
  · rw [stop_loopcheck_not_init l hi]; exact ⟨rfl, rfl, rfl⟩
  · cases ho : test_bit WCN_LOOPCHECK_OPEN l.status
    · rw [stop_loopcheck_not_open l ho]; exact ⟨rfl, rfl, rfl⟩
    · rw [stop_loopcheck_failing l hi ho hf]; exact ⟨rfl, rfl, rfl⟩

theorem flags_ok_run_op (HZ : Nat) (o : Op) (l : wcn_loopcheck) (h : flags_ok l.status) :
    flags_ok (run_op HZ o l).status := by
  cases o
  · show flags_ok (start_loopcheck HZ l).status
    intro _
    rw [start_loopcheck_bit HZ l _ (by decide)]
    cases hi : test_bit WCN_LOOPCHECK_INIT l.status
    · rw [start_loopcheck_not_init HZ l hi] at *
      rw [← hi]; exact h ‹_›
    · rfl
  · show flags_ok (stop_loopcheck l).status
    intro ho
    rw [stop_loopcheck_open_bit] at ho
    rw [stop_loopcheck_bit l _ (by decide)]
    apply h
    revert ho
    cases test_bit WCN_LOOPCHECK_OPEN l.status <;> simp
  · exact h

theorem flags_ok_run_ops (HZ : Nat) (ops : List Op) (l : wcn_loopcheck)
    (h : flags_ok l.status) : flags_ok (run_ops HZ ops l).status := by
  induction ops generalizing l with
  | nil => exact h
  | cons o ops ih => exact ih _ (flags_ok_run_op HZ o l h)

theorem flags_ok_blocked (HZ : Nat) (ops : List Op) (l : wcn_loopcheck)
    (h : flags_ok l.status) : flags_ok (blocked HZ ops l).2.1.status := by
  induction ops generalizing l with
  | nil => unfold blocked; split <;> exact h
  | cons o ops ih =>
    unfold blocked
    split
    · exact h
    · exact ih _ (flags_ok_run_op HZ o l h)

theorem flags_ok_wait (HZ : Nat) (env : TickEnv) (t : Nat) (l : wcn_loopcheck)
    (h : flags_ok l.status) : flags_ok (wait_for_completion_timeout HZ env t l).2.status :=
  flags_ok_run_ops HZ _ _ (flags_ok_blocked HZ _ _ h)

theorem test_bit_set_bit_ne (n m x : Nat) (h : n ≠ m) :
    test_bit n (set_bit m x) = test_bit n x := by
  simp [test_bit_set_bit, h]

theorem test_bit_clear_bit_ne (n m x : Nat) (h : n ≠ m) :
    test_bit n (clear_bit m x) = test_bit n x := by
  simp [test_bit_clear_bit, h]

theorem flags_ok_set_fail (s : Nat) (h : flags_ok s) :
    flags_ok (set_bit WCN_LOOPCHECK_FAIL s) := by
  intro ho
  rw [test_bit_set_bit_ne _ _ _ (by decide)] at ho ⊢
  exact h ho

theorem flags_ok_clear_fail (s : Nat) (h : flags_ok s) :
    flags_ok (clear_bit WCN_LOOPCHECK_FAIL s) := by
  intro ho
  rw [test_bit_clear_bit_ne _ _ _ (by decide)] at ho ⊢
  exact h ho

theorem flags_ok_loopcheck_work_queue (HZ : Nat) (env : TickEnv) (l : wcn_loopcheck)
    (h : flags_ok l.status) : flags_ok (loopcheck_work_queue HZ env l).1.status := by
  cases hopen : test_bit WCN_LOOPCHECK_OPEN l.status
  · rw [loopcheck_work_queue_closed HZ env l hopen]; exact h
  · by_cases hrx : env.rx_total_cnt_a = env.rx_total_cnt_b
    · have hw := flags_ok_wait HZ env (4 * HZ) l h
      cases hstill : test_bit WCN_LOOPCHECK_OPEN
          (wait_for_completion_timeout HZ env (4 * HZ) l).2.status
      · rw [loopcheck_work_queue_stopped HZ env l hopen hrx hstill]; exact hw
      · by_cases hwait : (wait_for_completion_timeout HZ env (4 * HZ) l).1 = 0
        · rw [loopcheck_work_queue_timeout HZ env l hopen hrx hwait hstill]
          exact flags_ok_clear_fail _
            (flags_ok_run_ops HZ env.during_report _ (flags_ok_set_fail _ hw))
        · rw [loopcheck_work_queue_acked HZ env l hopen hrx hwait hstill]; exact hw
    · rw [loopcheck_work_queue_traffic HZ env l hopen hrx]; exact h

theorem flags_ok_step (HZ : Nat) (a : Action) (l : wcn_loopcheck) (h : flags_ok l.status) :
    flags_ok (step HZ a l).status := by
  cases a with
  | call o => exact flags_ok_run_op HZ o l h
  | tick env =>
    show flags_ok (if l.work.timer.isSome then (worker_run HZ env l).1 else l).status
    split
    · exact flags_ok_loopcheck_work_queue HZ env
        { l with work := { l.work with timer := none, running := true } } h
    · exact h

theorem flags_ok_zero : flags_ok 0 := by
  intro h; exact absurd h (by decide)

theorem flags_ok_lifecycle_step (HZ : Nat) (e : Lifecycle) (l : wcn_loopcheck)
    (h : flags_ok l.status) : flags_ok (lifecycle_step HZ e l).status := by
  cases e with
  | init wq_ok =>
    cases wq_ok
    · exact flags_ok_zero
    · intro _
      show test_bit WCN_LOOPCHECK_INIT (set_bit WCN_LOOPCHECK_INIT 0) = true
      decide
  | deinit =>
    show flags_ok (loopcheck_deinit l).2.status
    cases hq : (stop_loopcheck l).workqueue
    · have hd : loopcheck_deinit l = (none, stop_loopcheck l) := by
        simp [loopcheck_deinit, destroy_workqueue, hq]
      rw [hd]
      exact flags_ok_run_op HZ .stop l h
    · have hd : loopcheck_deinit l = (some 0, { stop_loopcheck l with status := 0 }) := by
        simp [loopcheck_deinit, destroy_workqueue, hq]
      rw [hd]
      exact flags_ok_zero
  | act a => exact flags_ok_step HZ a l h

theorem flags_ok_lifecycle_run (HZ : Nat) (es : List Lifecycle) (l : wcn_loopcheck)
    (h : flags_ok l.status) : flags_ok (lifecycle_run HZ es l).status := by
  induction es generalizing l with
  | nil => exact h
  | cons e es ih => exact ih _ (flags_ok_lifecycle_step HZ e l h)

/-- The FAIL bit after the work function: clear whenever it was clear at entry. -/
theorem loopcheck_work_queue_fail_bit (HZ : Nat) (env : TickEnv) (l : wcn_loopcheck)
    (hf : test_bit WCN_LOOPCHECK_FAIL l.status = false) :
    test_bit WCN_LOOPCHECK_FAIL (loopcheck_work_queue HZ env l).1.status = false := by
  have hw := wait_for_completion_timeout_bit HZ env (4 * HZ) l WCN_LOOPCHECK_FAIL (by decide)
  cases hopen : test_bit WCN_LOOPCHECK_OPEN l.status
  · rw [loopcheck_work_queue_closed HZ env l hopen]; exact hf
  · by_cases hrx : env.rx_total_cnt_a = env.rx_total_cnt_b
    · cases hstill : test_bit WCN_LOOPCHECK_OPEN
          (wait_for_completion_timeout HZ env (4 * HZ) l).2.status
      · rw [loopcheck_work_queue_stopped HZ env l hopen hrx hstill, hw]; exact hf
      · by_cases hwait : (wait_for_completion_timeout HZ env (4 * HZ) l).1 = 0
        · rw [loopcheck_work_queue_timeout HZ env l hopen hrx hwait hstill]
          simp [test_bit_clear_bit]
        · rw [loopcheck_work_queue_acked HZ env l hopen hrx hwait hstill]
          show test_bit WCN_LOOPCHECK_FAIL
            (wait_for_completion_timeout HZ env (4 * HZ) l).2.status = false
          rw [hw]; exact hf
    · rw [loopcheck_work_queue_traffic HZ env l hopen hrx]; exact hf

/-- The status word the reporter is called with has FAIL set. -/
theorem loopcheck_work_queue_report_status (HZ : Nat) (env : TickEnv) (l : wcn_loopcheck)
    (reason : String) (st : Nat)
    (h : Call.mdbg_assert_interface reason st ∈ (loopcheck_work_queue HZ env l).2) :
    test_bit WCN_LOOPCHECK_FAIL st = true := by
  cases hopen : test_bit WCN_LOOPCHECK_OPEN l.status
  · rw [loopcheck_work_queue_closed HZ env l hopen] at h; simp at h
  · by_cases hrx : env.rx_total_cnt_a = env.rx_total_cnt_b
    · cases hstill : test_bit WCN_LOOPCHECK_OPEN
          (wait_for_completion_timeout HZ env (4 * HZ) l).2.status
      · rw [loopcheck_work_queue_stopped HZ env l hopen hrx hstill] at h; simp at h
      · by_cases hwait : (wait_for_completion_timeout HZ env (4 * HZ) l).1 = 0
        · rw [loopcheck_work_queue_timeout HZ env l hopen hrx hwait hstill] at h
          simp at h
          rw [h.2]; simp [test_bit_set_bit]
        · rw [loopcheck_work_queue_acked HZ env l hopen hrx hwait hstill] at h; simp at h
    · rw [loopcheck_work_queue_traffic HZ env l hopen hrx] at h; simp at h

/-! ## The workqueue pointer -/

theorem start_loopcheck_workqueue (HZ : Nat) (l : wcn_loopcheck) :
    (start_loopcheck HZ l).workqueue = l.workqueue := by
  cases hi : test_bit WCN_LOOPCHECK_INIT l.status
  · rw [start_loopcheck_not_init HZ l hi]
  · cases ho : test_bit WCN_LOOPCHECK_OPEN l.status
    · rw [start_loopcheck_idle HZ l hi ho]
    · rw [start_loopcheck_open HZ l ho]

theorem stop_loopcheck_workqueue (l : wcn_loopcheck) :
    (stop_loopcheck l).workqueue = l.workqueue := by
  cases hi : test_bit WCN_LOOPCHECK_INIT l.status
  · rw [stop_loopcheck_not_init l hi]
  · cases ho : test_bit WCN_LOOPCHECK_OPEN l.status
    · rw [stop_loopcheck_not_open l ho]
    · cases hf : test_bit WCN_LOOPCHECK_FAIL l.status
      · rw [stop_loopcheck_running l hi ho hf]
      · rw [stop_loopcheck_failing l hi ho hf]

theorem run_op_workqueue (HZ : Nat) (o : Op) (l : wcn_loopcheck) :
    (run_op HZ o l).workqueue = l.workqueue := by
  cases o
  · exact start_loopcheck_workqueue HZ l
  · exact stop_loopcheck_workqueue l
  · rfl

theorem run_ops_workqueue (HZ : Nat) (ops : List Op) (l : wcn_loopcheck) :
    (run_ops HZ ops l).workqueue = l.workqueue := by
  induction ops generalizing l with
  | nil => rfl
  | cons o ops ih => rw [run_ops_cons, ih, run_op_workqueue]

theorem blocked_workqueue (HZ : Nat) (ops : List Op) (l : wcn_loopcheck) :
    (blocked HZ ops l).2.1.workqueue = l.workqueue := by
  induction ops generalizing l with
  | nil => unfold blocked; split <;> rfl
  | cons o ops ih =>
    unfold blocked
    split
    · rfl
    · rw [ih, run_op_workqueue]

theorem wait_for_completion_timeout_workqueue (HZ : Nat) (env : TickEnv) (t : Nat)
    (l : wcn_loopcheck) :
    (wait_for_completion_timeout HZ env t l).2.workqueue = l.workqueue := by
  simp only [wait_for_completion_timeout]
  rw [run_ops_workqueue, blocked_workqueue]

theorem loopcheck_work_queue_workqueue (HZ : Nat) (env : TickEnv) (l : wcn_loopcheck) :
    (loopcheck_work_queue HZ env l).1.workqueue = l.workqueue := by
  have hw := wait_for_completion_timeout_workqueue HZ env (4 * HZ) l
  cases hopen : test_bit WCN_LOOPCHECK_OPEN l.status
  · rw [loopcheck_work_queue_closed HZ env l hopen]
  · by_cases hrx : env.rx_total_cnt_a = env.rx_total_cnt_b
    · cases hstill : test_bit WCN_LOOPCHECK_OPEN
          (wait_for_completion_timeout HZ env (4 * HZ) l).2.status
      · rw [loopcheck_work_queue_stopped HZ env l hopen hrx hstill, hw]
      · by_cases hwait : (wait_for_completion_timeout HZ env (4 * HZ) l).1 = 0
        · rw [loopcheck_work_queue_timeout HZ env l hopen hrx hwait hstill]
          show (run_ops HZ env.during_report _).workqueue = l.workqueue
          rw [run_ops_workqueue]
          exact hw
        · rw [loopcheck_work_queue_acked HZ env l hopen hrx hwait hstill]
          exact hw
    · rw [loopcheck_work_queue_traffic HZ env l hopen hrx]

theorem step_workqueue (HZ : Nat) (a : Action) (l : wcn_loopcheck) :
    (step HZ a l).workqueue = l.workqueue := by
  cases a with
  | call o => exact run_op_workqueue HZ o l
  | tick env =>
    show (if l.work.timer.isSome then (worker_run HZ env l).1 else l).workqueue = l.workqueue
    split
    · exact loopcheck_work_queue_workqueue HZ env
        { l with work := { l.work with timer := none, running := true } }
    · rfl

theorem run_workqueue (HZ : Nat) (acts : List Action) (l : wcn_loopcheck) :
    (run HZ acts l).workqueue = l.workqueue := by
  induction acts generalizing l with
  | nil => rfl
  | cons a acts ih =>
    show (run HZ acts (step HZ a l)).workqueue = l.workqueue
    rw [ih, step_workqueue]

/-- From the state a workqueue pointer is held in, `loopcheck_deinit` returns 0 and
leaves what `stop_loopcheck` leaves with the status word set to 0. -/
theorem loopcheck_deinit_of_workqueue (l : wcn_loopcheck) (h : l.workqueue = true) :
    loopcheck_deinit l = (some 0, { stop_loopcheck l with status := 0 }) := by
  simp [loopcheck_deinit, destroy_workqueue, stop_loopcheck_workqueue, h]

/-- Without a workqueue pointer `loopcheck_deinit` does not return: the state is the
one `stop_loopcheck` left. -/
theorem loopcheck_deinit_of_null (l : wcn_loopcheck) (h : l.workqueue = false) :
    loopcheck_deinit l = (none, stop_loopcheck l) := by
  simp [loopcheck_deinit, destroy_workqueue, stop_loopcheck_workqueue, h]

/-- The work function leaves the INIT bit as it found it. -/
theorem loopcheck_work_queue_init_bit (HZ : Nat) (env : TickEnv) (l : wcn_loopcheck) :
    test_bit WCN_LOOPCHECK_INIT (loopcheck_work_queue HZ env l).1.status
      = test_bit WCN_LOOPCHECK_INIT l.status := by
  have hw := wait_for_completion_timeout_bit HZ env (4 * HZ) l WCN_LOOPCHECK_INIT (by decide)
  cases hopen : test_bit WCN_LOOPCHECK_OPEN l.status
  · rw [loopcheck_work_queue_closed HZ env l hopen]
  · by_cases hrx : env.rx_total_cnt_a = env.rx_total_cnt_b
    · cases hstill : test_bit WCN_LOOPCHECK_OPEN
          (wait_for_completion_timeout HZ env (4 * HZ) l).2.status
      · rw [loopcheck_work_queue_stopped HZ env l hopen hrx hstill, hw]
      · by_cases hwait : (wait_for_completion_timeout HZ env (4 * HZ) l).1 = 0
        · rw [loopcheck_work_queue_timeout HZ env l hopen hrx hwait hstill]
          show test_bit WCN_LOOPCHECK_INIT
            (clear_bit WCN_LOOPCHECK_FAIL (run_ops HZ env.during_report _).status) = _
          rw [test_bit_clear_bit_ne _ _ _ (by decide),
            run_ops_bit HZ _ _ _ (by decide)]
          show test_bit WCN_LOOPCHECK_INIT (set_bit WCN_LOOPCHECK_FAIL _) = _
          rw [test_bit_set_bit_ne _ _ _ (by decide), hw]
        · rw [loopcheck_work_queue_acked HZ env l hopen hrx hwait hstill]
          exact hw
    · rw [loopcheck_work_queue_traffic HZ env l hopen hrx]

/-- Between two steps INIT stays set and FAIL stays clear, whatever the steps. -/
theorem step_init_fail (HZ : Nat) (a : Action) (l : wcn_loopcheck)
    (hi : test_bit WCN_LOOPCHECK_INIT l.status = true)
    (hf : test_bit WCN_LOOPCHECK_FAIL l.status = false) :
    test_bit WCN_LOOPCHECK_INIT (step HZ a l).status = true ∧
    test_bit WCN_LOOPCHECK_FAIL (step HZ a l).status = false := by
  cases a with
  | call o =>
    exact ⟨(run_op_bit HZ o l _ (by decide)).trans hi,
      (run_op_bit HZ o l _ (by decide)).trans hf⟩
  | tick env =>
    show test_bit WCN_LOOPCHECK_INIT
        (if l.work.timer.isSome then (worker_run HZ env l).1 else l).status = true ∧
      test_bit WCN_LOOPCHECK_FAIL
        (if l.work.timer.isSome then (worker_run HZ env l).1 else l).status = false
    split
    · exact ⟨(loopcheck_work_queue_init_bit HZ env
          { l with work := { l.work with timer := none, running := true } }).trans hi,
        loopcheck_work_queue_fail_bit HZ env
          { l with work := { l.work with timer := none, running := true } } hf⟩
    · exact ⟨hi, hf⟩

theorem run_init_fail (HZ : Nat) (acts : List Action) (l : wcn_loopcheck)
    (hi : test_bit WCN_LOOPCHECK_INIT l.status = true)
    (hf : test_bit WCN_LOOPCHECK_FAIL l.status = false) :
    test_bit WCN_LOOPCHECK_INIT (run HZ acts l).status = true ∧
    test_bit WCN_LOOPCHECK_FAIL (run HZ acts l).status = false := by
  induction acts generalizing l with
  | nil => exact ⟨hi, hf⟩
  | cons a acts ih =>
    exact ih _ (step_init_fail HZ a l hi hf).1 (step_init_fail HZ a l hi hf).2

/-- In the zero-filled module state the pointer is NULL: `loopcheck_deinit` does not
return and the state is as it was. -/
theorem loopcheck_deinit_boot : loopcheck_deinit boot = (none, boot) := by
  decide

/-! ## The claims C11 to C20 -/

/-- C11, the claim as stated fails: in the state with INIT, OPEN and FAIL set (status
word 14) `stop_loopcheck` clears OPEN (status word 10). -/
theorem stop_while_escalating_clears_open :
    test_bit WCN_LOOPCHECK_INIT sample_escalating.status = true ∧
    test_bit WCN_LOOPCHECK_OPEN sample_escalating.status = true ∧
    test_bit WCN_LOOPCHECK_FAIL sample_escalating.status = true ∧
    (stop_loopcheck sample_escalating).status = 10 ∧
    test_bit WCN_LOOPCHECK_OPEN (stop_loopcheck sample_escalating).status = false := by
  decide

/-- C11 (stop while escalating), amended. In every state in which FAIL is set,
`stop_loopcheck` leaves the completion (no `complete_all`), the work item (no
cancel), INIT, FAIL and every bit of the status word other than OPEN unchanged;
OPEN is cleared when INIT is set, and the whole state is unchanged when INIT is
clear or OPEN is already clear. -/
theorem stop_while_escalating (l : wcn_loopcheck)
    (hfail : test_bit WCN_LOOPCHECK_FAIL l.status = true) :
    (stop_loopcheck l).completion = l.completion ∧
    (stop_loopcheck l).work = l.work ∧
    (stop_loopcheck l).workqueue = l.workqueue ∧
    (∀ n, n ≠ WCN_LOOPCHECK_OPEN →
      test_bit n (stop_loopcheck l).status = test_bit n l.status) ∧
    (test_bit WCN_LOOPCHECK_INIT l.status = true →
      test_bit WCN_LOOPCHECK_OPEN (stop_loopcheck l).status = false) ∧
    (test_bit WCN_LOOPCHECK_INIT l.status = false ∨
      test_bit WCN_LOOPCHECK_OPEN l.status = false → stop_loopcheck l = l) := by
  obtain ⟨h1, h2, h3⟩ := stop_loopcheck_failing_frame l hfail
  refine ⟨h1, h2, h3, fun n hn => stop_loopcheck_bit l n hn, fun hi => ?_, fun h => ?_⟩
  · rw [stop_loopcheck_open_bit, hi]; simp
  · rcases h with h | h
    · exact stop_loopcheck_not_init l h
    · exact stop_loopcheck_not_open l h

theorem stop_while_escalating_witness :
    stop_loopcheck sample_escalating =
      { sample_escalating with status := 10 } ∧
    (stop_loopcheck sample_escalating).completion = sample_escalating.completion ∧
    (stop_loopcheck sample_escalating).work = sample_escalating.work ∧
    test_bit WCN_LOOPCHECK_OPEN (stop_loopcheck sample_escalating).status = false :=
  ⟨by decide,
   (stop_while_escalating sample_escalating (by decide)).1,
   (stop_while_escalating sample_escalating (by decide)).2.1,
   (stop_while_escalating sample_escalating (by decide)).2.2.2.2.1 (by decide)⟩

/-- C12 (stop idempotence). In every state with OPEN clear, initialized or not,
`stop_loopcheck` returns the state unchanged (status word, completion, work item);
hence from every state a second `stop_loopcheck` changes nothing after a first
one. -/
theorem stop_idempotent (l : wcn_loopcheck) :
    (test_bit WCN_LOOPCHECK_OPEN l.status = false → stop_loopcheck l = l) ∧
    stop_loopcheck (stop_loopcheck l) = stop_loopcheck l := by
  refine ⟨stop_loopcheck_not_open l, ?_⟩
  cases hi : test_bit WCN_LOOPCHECK_INIT l.status
  · rw [stop_loopcheck_not_init l hi, stop_loopcheck_not_init l hi]
  · apply stop_loopcheck_not_open
    rw [stop_loopcheck_open_bit, hi]; simp

theorem stop_idempotent_witness :
    stop_loopcheck sample_idle = sample_idle ∧
    stop_loopcheck (stop_loopcheck sample_started) = stop_loopcheck sample_started ∧
    stop_loopcheck sample_started ≠ sample_started :=
  ⟨(stop_idempotent sample_idle).1 (by decide), (stop_idempotent sample_started).2, by decide⟩

/-- C13 (quiet exit on stop). For every tick that reaches the wait (OPEN set at entry,
equal RX samples) and whatever the wait returns (zero after a timeout, non-zero
after an acknowledgment or a `complete_all`), if OPEN is clear when the wait has
returned, the work function returns after exactly two calls, the send and the
wait: `queue_delayed_work` and `mdbg_assert_interface` are not called, the state is
the one the wait left, and the FAIL bit is as it was at entry. -/
theorem tick_quiet_exit (HZ : Nat) (env : TickEnv) (l : wcn_loopcheck)
    (hopen : test_bit WCN_LOOPCHECK_OPEN l.status = true)
    (hrx : env.rx_total_cnt_a = env.rx_total_cnt_b)
    (hclosed : test_bit WCN_LOOPCHECK_OPEN
      (wait_for_completion_timeout HZ env (4 * HZ) l).2.status = false) :
    (∃ buf len ret, (loopcheck_work_queue HZ env l).2 =
      [.loopcheck_send buf len ret,
       .wait_for_completion_timeout (4 * HZ)
          (wait_for_completion_timeout HZ env (4 * HZ) l).1]) ∧
    (∀ d q, Call.queue_delayed_work d q ∉ (loopcheck_work_queue HZ env l).2) ∧
    (∀ reason st, Call.mdbg_assert_interface reason st ∉ (loopcheck_work_queue HZ env l).2) ∧
    (loopcheck_work_queue HZ env l).1 = (wait_for_completion_timeout HZ env (4 * HZ) l).2 ∧
    test_bit WCN_LOOPCHECK_FAIL (loopcheck_work_queue HZ env l).1.status
      = test_bit WCN_LOOPCHECK_FAIL l.status := by
  rw [loopcheck_work_queue_stopped HZ env l hopen hrx hclosed]
  refine ⟨⟨_, _, _, rfl⟩, ?_, ?_, rfl, ?_⟩
  · intro d q h; simp at h
  · intro reason st h; simp at h
  · exact wait_for_completion_timeout_bit HZ env (4 * HZ) l _ (by decide)

theorem tick_quiet_exit_witness :
    loopcheck_work_queue 100 sample_env_stopped sample_in_tick =
      ({ status := 2, completion := { done := UINT_MAX },
         work := { timer := none, running := true, canceling := true }, workqueue := true },
       [.loopcheck_send "at+loopcheck=1000,500\r\n".data 23 0,
        .wait_for_completion_timeout 400 200]) ∧
    (loopcheck_work_queue 100 sample_env_late_stop sample_in_tick).2 =
       [.loopcheck_send "at+loopcheck=1000,500\r\n".data 23 0,
        .wait_for_completion_timeout 400 0] ∧
    (∀ d q, Call.queue_delayed_work d q ∉
      (loopcheck_work_queue 100 sample_env_stopped sample_in_tick).2) ∧
    (∀ reason st, Call.mdbg_assert_interface reason st ∉
      (loopcheck_work_queue 100 sample_env_late_stop sample_in_tick).2) :=
  ⟨by decide, by decide,
   (tick_quiet_exit 100 sample_env_stopped sample_in_tick (by decide) (by decide)
      (by decide)).2.1,
   (tick_quiet_exit 100 sample_env_late_stop sample_in_tick (by decide) (by decide)
      (by decide)).2.2.1⟩

/-- C14 (tick guard). In every state with OPEN clear the work function makes no call
at all (no send, no wait, no report, no `queue_delayed_work`) and returns the state
unchanged: status word, completion and work item. -/
theorem tick_guard (HZ : Nat) (env : TickEnv) (l : wcn_loopcheck)
    (hclosed : test_bit WCN_LOOPCHECK_OPEN l.status = false) :
    (loopcheck_work_queue HZ env l).2 = [] ∧ (loopcheck_work_queue HZ env l).1 = l := by
  rw [loopcheck_work_queue_closed HZ env l hclosed]
  exact ⟨rfl, rfl⟩

theorem tick_guard_witness :
    (loopcheck_work_queue 100 sample_env_acked sample_idle).2 = [] ∧
    (loopcheck_work_queue 100 sample_env_acked sample_idle).1 = sample_idle :=
  tick_guard 100 sample_env_acked sample_idle (by decide)

/-- C15 (flag invariant). In every state reached from the zero-filled module state by
any sequence of `loopcheck_init` (succeeding or failing), `start_loopcheck`,
`stop_loopcheck`, `complete_kernel_loopcheck`, worker runs (with any calls from
other contexts inside them) and `loopcheck_deinit`, the OPEN bit is set only if the
INIT bit is set. -/
theorem open_only_if_initialized (HZ : Nat) (es : List Lifecycle) :
    test_bit WCN_LOOPCHECK_OPEN (lifecycle_run HZ es boot).status = true →
    test_bit WCN_LOOPCHECK_INIT (lifecycle_run HZ es boot).status = true :=
  flags_ok_lifecycle_run HZ es boot flags_ok_zero

theorem open_only_if_initialized_witness :
    test_bit WCN_LOOPCHECK_OPEN
      (lifecycle_run 100 [.act (.call .start), .init false, .init true, .act (.call .start),
        .act (.tick sample_env_acked)] boot).status = true ∧
    test_bit WCN_LOOPCHECK_INIT
      (lifecycle_run 100 [.act (.call .start), .init false, .init true, .act (.call .start),
        .act (.tick sample_env_acked)] boot).status = true ∧
    (lifecycle_run 100 [.init true, .act (.call .start), .deinit, .act (.call .start)]
      boot).status = 0 :=
  ⟨by decide,
   open_only_if_initialized 100 [.act (.call .start), .init false, .init true,
      .act (.call .start), .act (.tick sample_env_acked)] (by decide),
   by decide⟩

/-- C16 (init). For every prior state, `loopcheck_init` returns 0 with the status word
holding exactly the INIT bit (OPEN and FAIL clear) when the workqueue is created,
and returns `-ENOMEM` with the status word 0 (INIT, OPEN and FAIL clear) when it is
not; after the failure `start_loopcheck` changes nothing. -/
theorem init_outcomes (HZ : Nat) (l : wcn_loopcheck) :
    ((loopcheck_init true l).1 = 0 ∧
      (loopcheck_init true l).2.status = 1 <<< WCN_LOOPCHECK_INIT ∧
      test_bit WCN_LOOPCHECK_INIT (loopcheck_init true l).2.status = true ∧
      test_bit WCN_LOOPCHECK_OPEN (loopcheck_init true l).2.status = false ∧
      test_bit WCN_LOOPCHECK_FAIL (loopcheck_init true l).2.status = false) ∧
    ((loopcheck_init false l).1 = -ENOMEM ∧
      (loopcheck_init false l).2.status = 0 ∧
      test_bit WCN_LOOPCHECK_INIT (loopcheck_init false l).2.status = false ∧
      test_bit WCN_LOOPCHECK_OPEN (loopcheck_init false l).2.status = false ∧
      test_bit WCN_LOOPCHECK_FAIL (loopcheck_init false l).2.status = false ∧
      start_loopcheck HZ (loopcheck_init false l).2 = (loopcheck_init false l).2) := by
  refine ⟨⟨rfl, ?_, ?_, ?_, ?_⟩, rfl, rfl, ?_, ?_, ?_, ?_⟩
  · show set_bit WCN_LOOPCHECK_INIT 0 = _
    decide
  · show test_bit WCN_LOOPCHECK_INIT (set_bit WCN_LOOPCHECK_INIT 0) = true
    decide
  · show test_bit WCN_LOOPCHECK_OPEN (set_bit WCN_LOOPCHECK_INIT 0) = false
    decide
  · show test_bit WCN_LOOPCHECK_FAIL (set_bit WCN_LOOPCHECK_INIT 0) = false
    decide
  · show test_bit WCN_LOOPCHECK_INIT 0 = false
    decide
  · show test_bit WCN_LOOPCHECK_OPEN 0 = false
    decide
  · show test_bit WCN_LOOPCHECK_FAIL 0 = false
    decide
  · apply start_loopcheck_not_init
    show test_bit WCN_LOOPCHECK_INIT 0 = false
    decide

/-- C17, the claim as stated fails: in the initialized state reached by
`start_loopcheck` and one tick during whose fatal report the watchdog is stopped,
started and stopped again, OPEN is clear and a tick is pending; `loopcheck_deinit`
returns 0 with the status word 0 and that tick still pending. -/
theorem deinit_leaves_tick_pending :
    test_bit WCN_LOOPCHECK_INIT
      (run 100 [.call .start, .tick sample_env_restart] sample_idle).status = true ∧
    loopcheck_deinit (run 100 [.call .start, .tick sample_env_restart] sample_idle) =
      (some 0,
        { status := 0, completion := { done := 0 },
          work := { timer := some 100, running := false, canceling := false },
          workqueue := true }) := by
  decide

/-- C17 (deinit), amended. Let `s` be a state reached from a successful
`loopcheck_init` by calls of `start_loopcheck`, `stop_loopcheck`,
`complete_kernel_loopcheck` and ticks (with any calls from other contexts inside
them).  INIT is set in `s`, and `loopcheck_deinit` returns 0 and leaves what
`stop_loopcheck` leaves with the status word then set to 0: INIT, OPEN and FAIL are
clear.  A tick is pending afterwards exactly when one was pending in `s` with OPEN
clear; when no `start_loopcheck` was called during a fatal report on the way to
`s`, no tick is pending after `loopcheck_deinit`. -/
theorem deinit_stops_first (HZ : Nat) (l0 : wcn_loopcheck) (acts : List Action)
    (s : wcn_loopcheck) (hs : s = run HZ acts (loopcheck_init true l0).2) :
    test_bit WCN_LOOPCHECK_INIT s.status = true ∧
    loopcheck_deinit s = (some 0, { stop_loopcheck s with status := 0 }) ∧
    test_bit WCN_LOOPCHECK_INIT (loopcheck_deinit s).2.status = false ∧
    test_bit WCN_LOOPCHECK_OPEN (loopcheck_deinit s).2.status = false ∧
    test_bit WCN_LOOPCHECK_FAIL (loopcheck_deinit s).2.status = false ∧
    (loopcheck_deinit s).2.work.timer =
      (if test_bit WCN_LOOPCHECK_OPEN s.status then none else s.work.timer) ∧
    ((∀ a ∈ acts, no_start_in_report a = true) →
      (loopcheck_deinit s).2.work.timer = none) := by
  subst hs
  have hi0 : test_bit WCN_LOOPCHECK_INIT (loopcheck_init true l0).2.status = true :=
    (Quiet_init l0).1
  have hf0 : test_bit WCN_LOOPCHECK_FAIL (loopcheck_init true l0).2.status = false :=
    (Quiet_init l0).2.1
  obtain ⟨hi, hf⟩ := run_init_fail HZ acts _ hi0 hf0
  have hq : (run HZ acts (loopcheck_init true l0).2).workqueue = true := by
    rw [run_workqueue]; rfl
  have hd := loopcheck_deinit_of_workqueue _ hq
  have ht : (stop_loopcheck (run HZ acts (loopcheck_init true l0).2)).work.timer =
      (if test_bit WCN_LOOPCHECK_OPEN (run HZ acts (loopcheck_init true l0).2).status
        then none else (run HZ acts (loopcheck_init true l0).2).work.timer) := by
    cases ho : test_bit WCN_LOOPCHECK_OPEN (run HZ acts (loopcheck_init true l0).2).status
    · rw [stop_loopcheck_not_open _ ho]; rfl
    · rw [stop_loopcheck_running _ hi ho hf]; rfl
  refine ⟨hi, hd, ?_, ?_, ?_, ?_, ?_⟩
  · rw [hd]
    show test_bit WCN_LOOPCHECK_INIT 0 = false
    decide
  · rw [hd]
    show test_bit WCN_LOOPCHECK_OPEN 0 = false
    decide
  · rw [hd]
    show test_bit WCN_LOOPCHECK_FAIL 0 = false
    decide
  · rw [hd]
    exact ht
  · intro hsr
    obtain ⟨_, _, _, _, hp⟩ := Quiet_run HZ acts _ (Quiet_init l0) hsr
    rw [hd]
    show (stop_loopcheck (run HZ acts (loopcheck_init true l0).2)).work.timer = none
    rw [ht]
    cases ho : test_bit WCN_LOOPCHECK_OPEN (run HZ acts (loopcheck_init true l0).2).status
    · cases htm : (run HZ acts (loopcheck_init true l0).2).work.timer
      · rfl
      · have := hp (by simp [htm])
        rw [ho] at this; cases this
    · rfl

theorem deinit_stops_first_witness :
    loopcheck_deinit
        (run 100 [.call .start, .tick sample_env_acked] (loopcheck_init true boot).2) =
      (some 0,
        { status := 0, completion := { done := UINT_MAX },
          work := { timer := none, running := false, canceling := false },
          workqueue := true }) ∧
    (loopcheck_deinit (run 100 [.call .start, .tick sample_env_acked]
      (loopcheck_init true boot).2)).2.work.timer = none ∧
    (loopcheck_deinit (run 100 [.call .start, .tick sample_env_restart]
      (loopcheck_init true boot).2)).2.work.timer = some 100 :=
  ⟨by decide,
   (deinit_stops_first 100 boot [.call .start, .tick sample_env_acked] _ rfl).2.2.2.2.2.2
      (by decide),
   by decide⟩

/-- C18 (start before init). In every state with INIT clear `start_loopcheck` returns
the state unchanged: the status word and the completion are as before and no tick
is queued (the work item is as before). -/
theorem start_before_init (HZ : Nat) (l : wcn_loopcheck)
    (hinit : test_bit WCN_LOOPCHECK_INIT l.status = false) :
    start_loopcheck HZ l = l ∧
    (start_loopcheck HZ l).status = l.status ∧
    (start_loopcheck HZ l).completion = l.completion ∧
    (start_loopcheck HZ l).work = l.work := by
  rw [start_loopcheck_not_init HZ l hinit]
  exact ⟨rfl, rfl, rfl, rfl⟩

theorem start_before_init_witness :
    start_loopcheck 100 boot = boot ∧
    start_loopcheck 100 (loopcheck_init false sample_started).2
      = (loopcheck_init false sample_started).2 ∧
    start_loopcheck 100 (loopcheck_deinit sample_started).2
      = (loopcheck_deinit sample_started).2 :=
  ⟨(start_before_init 100 boot (by decide)).1,
   (start_before_init 100 (loopcheck_init false sample_started).2 (by decide)).1,
   (start_before_init 100 (loopcheck_deinit sample_started).2 (by decide)).1⟩

/-- C19 (Failed is transient). Every operation started with FAIL clear returns with
FAIL clear: `loopcheck_init` (either outcome) leaves it clear from any state,
`loopcheck_deinit` leaves it clear when it was clear, and from any state in which
the workqueue pointer is held (where it returns), `start_loopcheck`,
`stop_loopcheck` and `complete_kernel_loopcheck` never change it, and the work
function, on every path and whatever other contexts call in, returns with it
clear.  The only place that sets FAIL is the timeout path of the work function: the
status word at every call of `mdbg_assert_interface` has FAIL set, and it is cleared
again before the work function returns. -/
theorem failed_is_transient (HZ : Nat) :
    (∀ ok l, test_bit WCN_LOOPCHECK_FAIL (loopcheck_init ok l).2.status = false) ∧
    (∀ l, (test_bit WCN_LOOPCHECK_FAIL l.status = false →
        test_bit WCN_LOOPCHECK_FAIL (loopcheck_deinit l).2.status = false) ∧
      (l.workqueue = true →
        test_bit WCN_LOOPCHECK_FAIL (loopcheck_deinit l).2.status = false)) ∧
    (∀ o l, test_bit WCN_LOOPCHECK_FAIL (run_op HZ o l).status
      = test_bit WCN_LOOPCHECK_FAIL l.status) ∧
    (∀ env l, test_bit WCN_LOOPCHECK_FAIL l.status = false →
      test_bit WCN_LOOPCHECK_FAIL (loopcheck_work_queue HZ env l).1.status = false ∧
      test_bit WCN_LOOPCHECK_FAIL (worker_run HZ env l).1.status = false) ∧
    (∀ env l reason st,
      Call.mdbg_assert_interface reason st ∈ (loopcheck_work_queue HZ env l).2 →
      test_bit WCN_LOOPCHECK_FAIL st = true) := by
  refine ⟨?_, ?_, ?_, ?_, ?_⟩
  · intro ok l
    cases ok
    · show test_bit WCN_LOOPCHECK_FAIL 0 = false
      decide
    · show test_bit WCN_LOOPCHECK_FAIL (set_bit WCN_LOOPCHECK_INIT 0) = false
      decide
  · intro l
    have hz : test_bit WCN_LOOPCHECK_FAIL 0 = false := by decide
    constructor
    · intro hf
      cases hq : l.workqueue
      · rw [loopcheck_deinit_of_null l hq]
        exact (stop_loopcheck_bit l _ (by decide)).trans hf
      · rw [loopcheck_deinit_of_workqueue l hq]
        exact hz
    · intro hq
      rw [loopcheck_deinit_of_workqueue l hq]
      exact hz
  · intro o l
    exact run_op_bit HZ o l _ (by decide)
  · intro env l hf
    exact ⟨loopcheck_work_queue_fail_bit HZ env l hf,
      loopcheck_work_queue_fail_bit HZ env
        { l with work := { l.work with timer := none, running := true } } hf⟩
  · intro env l reason st h
    exact loopcheck_work_queue_report_status HZ env l reason st h

theorem failed_is_transient_witness :
    (loopcheck_work_queue 100 sample_env sample_in_tick).2 =
        [.loopcheck_send "at+loopcheck=1000,500\r\n".data 23 0,
         .wait_for_completion_timeout 400 0,
         .mdbg_assert_interface "WCN loopcheck erro!" 14] ∧
    test_bit WCN_LOOPCHECK_FAIL 14 = true ∧
    test_bit WCN_LOOPCHECK_FAIL (loopcheck_work_queue 100 sample_env sample_in_tick).1.status
      = false :=
  ⟨by decide,
   (failed_is_transient 100).2.2.2.2 sample_env sample_in_tick "WCN loopcheck erro!" 14
     (by decide),
   ((failed_is_transient 100).2.2.2.1 sample_env sample_in_tick (by decide)).1⟩


/-! ## The claims C21 to C24 -/

/-- C21, the claim as stated fails: in the sample tick the clock reads 1000000000 ns
at entry; a reading taken when the probe is sent, after the 4 to 6 ms sleep between
the two RX samples (here 5 ms later), converts to 1005 ms, but the probe handed to
`loopcheck_send` carries 1000. -/
theorem probe_carries_entry_reading :
    sample_env.local_clock = 1000000000 ∧
    MARLIN_64B_NS_TO_32B_MS (sample_env.local_clock + 5000000) = 1005 ∧
    (loopcheck_work_queue 100 sample_env sample_in_tick).2.head? =
      some (.loopcheck_send "at+loopcheck=1000,500\r\n".data 23 0) ∧
    wire_format 1000 500 = "at+loopcheck=1000,500\r\n".data ∧
    wire_format 1005 500 ≠ wire_format 1000 500 := by
  decide

/-- C21 (send timestamp), amended. In every tick that transmits a probe (OPEN set,
equal RX samples), the tx timestamp in the message is the reading of `local_clock()`
taken at the entry of the work function, before the OPEN guard, the two RX samples
and the sleep between them, converted to milliseconds; a reading taken at
transmission time, at least 4 ms (the lower bound of `usleep_range(4000, 6000)`)
after the entry reading, converts to a number of milliseconds at least 4 higher
than the one in the message. -/
theorem probe_timestamp_is_entry_reading (HZ : Nat) (env : TickEnv) (l : wcn_loopcheck)
    (hopen : test_bit WCN_LOOPCHECK_OPEN l.status = true)
    (hrx : env.rx_total_cnt_a = env.rx_total_cnt_b)
    (ht : env.local_clock < 2 ^ 64) (hb : env.marlin_bootup_time < 2 ^ 64) :
    (∃ ret rest, (loopcheck_work_queue HZ env l).2 =
      .loopcheck_send
        (wire_format (MARLIN_64B_NS_TO_32B_MS env.local_clock)
          (MARLIN_64B_NS_TO_32B_MS env.marlin_bootup_time))
        (wire_format (MARLIN_64B_NS_TO_32B_MS env.local_clock)
          (MARLIN_64B_NS_TO_32B_MS env.marlin_bootup_time)).length
        ret :: rest) ∧
    (∀ at_send, env.local_clock + 4000 * 1000 ≤ at_send →
      MARLIN_64B_NS_TO_32B_MS env.local_clock + 4 ≤ MARLIN_64B_NS_TO_32B_MS at_send) := by
  constructor
  · obtain ⟨rest, h⟩ := loopcheck_work_queue_sends HZ env l hopen hrx
    refine ⟨(loopcheck_send env.send (probe env) (strlen (probe env))).1, rest, ?_⟩
    rw [h, strlen_probe, probe_eq, Nat.mod_eq_of_lt ht, Nat.mod_eq_of_lt hb,
      loopcheck_fmt_eq_wire_format _ _ (by omega) (by omega)]
    rfl
  · intro at_send h
    simp only [MARLIN_64B_NS_TO_32B_MS]
    omega

theorem probe_timestamp_is_entry_reading_witness :
    (∃ ret rest, (loopcheck_work_queue 100 sample_env sample_in_tick).2 =
      .loopcheck_send
        (wire_format (MARLIN_64B_NS_TO_32B_MS sample_env.local_clock)
          (MARLIN_64B_NS_TO_32B_MS sample_env.marlin_bootup_time))
        (wire_format (MARLIN_64B_NS_TO_32B_MS sample_env.local_clock)
          (MARLIN_64B_NS_TO_32B_MS sample_env.marlin_bootup_time)).length
        ret :: rest) ∧
    MARLIN_64B_NS_TO_32B_MS sample_env.local_clock + 4
      ≤ MARLIN_64B_NS_TO_32B_MS (sample_env.local_clock + 5000000) :=
  ⟨(probe_timestamp_is_entry_reading 100 sample_env sample_in_tick (by decide) (by decide)
      (by decide) (by decide)).1,
   (probe_timestamp_is_entry_reading 100 sample_env sample_in_tick (by decide) (by decide)
      (by decide) (by decide)).2 _ (by decide)⟩

/-- C22 (the probe fits its buffer). For every pair of numbers, formatted as unsigned
64-bit values by `"at+loopcheck=%llu,%llu\r\n"`, the text has at most 56 characters
(56 for two 20-digit numbers), fewer than the 64 bytes of the buffer, so `snprintf`
stores it whole and it ends in CR LF; the buffer a tick hands to `loopcheck_send` is
this untruncated text. -/
theorem probe_fits_buffer (tx boot : Nat) :
    (loopcheck_fmt tx boot).length ≤ 56 ∧ 56 < 64 ∧
    (loopcheck_fmt (2 ^ 64 - 1) (2 ^ 64 - 1)).length = 56 ∧
    snprintf 64 (loopcheck_fmt tx boot) = loopcheck_fmt tx boot ∧
    (∃ body, loopcheck_fmt tx boot = body ++ ['\r', '\n']) ∧
    (∀ env : TickEnv, ∃ body, probe env = body ++ ['\r', '\n']) := by
  have hlen := loopcheck_fmt_length tx boot
  refine ⟨hlen, by decide, by decide, ?_, ⟨_, rfl⟩, fun env => ?_⟩
  · exact List.take_of_length_le (by omega)
  · rw [probe_eq]
    exact ⟨_, rfl⟩

/-- C23 (recovery sequence). From every state with INIT and OPEN set, FAIL clear and
the work function not executing (the state a timeout escalation leaves when the
reporter does not stop the watchdog, in which no tick is pending; the statement
does not need that), `stop_loopcheck` followed by `start_loopcheck` ends with OPEN
set, the completion reset to `done = 0`, and the tick pending with delay
HZ = 1 s. -/
theorem recovery_sequence (HZ : Nat) (l : wcn_loopcheck)
    (hinit : test_bit WCN_LOOPCHECK_INIT l.status = true)
    (hopen : test_bit WCN_LOOPCHECK_OPEN l.status = true)
    (hfail : test_bit WCN_LOOPCHECK_FAIL l.status = false)
    (hrun : l.work.running = false) :
    test_bit WCN_LOOPCHECK_OPEN (start_loopcheck HZ (stop_loopcheck l)).status = true ∧
    test_bit WCN_LOOPCHECK_INIT (start_loopcheck HZ (stop_loopcheck l)).status = true ∧
    test_bit WCN_LOOPCHECK_FAIL (start_loopcheck HZ (stop_loopcheck l)).status = false ∧
    (start_loopcheck HZ (stop_loopcheck l)).completion.done = 0 ∧
    (start_loopcheck HZ (stop_loopcheck l)).work.timer = some HZ := by
  have hs := stop_loopcheck_running l hinit hopen hfail
  have hi' : test_bit WCN_LOOPCHECK_INIT (stop_loopcheck l).status = true := by
    rw [stop_loopcheck_bit l _ (by decide)]; exact hinit
  have ho' : test_bit WCN_LOOPCHECK_OPEN (stop_loopcheck l).status = false := by
    rw [stop_loopcheck_open_bit, hinit]; simp
  have hst := start_loopcheck_idle HZ (stop_loopcheck l) hi' ho'
  refine ⟨?_, ?_, ?_, ?_, ?_⟩
  · rw [hst]; simp [test_bit_set_bit]
  · rw [start_loopcheck_bit HZ _ _ (by decide)]; exact hi'
  · rw [start_loopcheck_bit HZ _ _ (by decide), stop_loopcheck_bit l _ (by decide)]; exact hfail
  · rw [hst]
  · rw [hst, hs]
    simp [queue_delayed_work, cancel_delayed_work_sync, hrun]

theorem recovery_sequence_witness :
    (worker_run 100 sample_env sample_started).1 =
      { status := 6, completion := { done := 0 }, work := INIT_DELAYED_WORK,
        workqueue := true } ∧
    (start_loopcheck 100 (stop_loopcheck (worker_run 100 sample_env sample_started).1)).work.timer
      = some 100 :=
  ⟨by decide,
   (recovery_sequence 100 (worker_run 100 sample_env sample_started).1 (by decide) (by decide)
      (by decide) (by decide)).2.2.2.2⟩

/-- C24 (`loopcheck_send` with the subsystem inactive). For every buffer and length:
when `marlin_get_module_status()` is false `loopcheck_send` returns `-EIO` and makes
no call at all (no `kzalloc`, no bus list allocation, no push); when the module is
active, `kzalloc` succeeds and `sprdwcn_bus_list_alloc` fails, it returns `-ENOMEM`,
frees the buffer and pushes nothing.  The size it asked `kzalloc` for is
`len + PUB_HEAD_RSV + 1` in `unsigned int` arithmetic, which wraps at `2 ^ 32`. -/
theorem send_refusals (env : SendEnv) (buf : List Char) (len : Nat) :
    (env.module_status = false → loopcheck_send env buf len = (- EIO, [])) ∧
    (env.module_status = true → env.kzalloc_ok = true → env.list_alloc_ok = false →
      (loopcheck_send env buf len).1 = -ENOMEM ∧
      (loopcheck_send env buf len).2 =
        [.kzalloc ((len % 2 ^ 32 + env.PUB_HEAD_RSV + 1) % 2 ^ 32),
         .sprdwcn_bus_list_alloc, .kfree] ∧
      (∀ b n, BusCall.sprdwcn_bus_push_list b n ∉ (loopcheck_send env buf len).2) ∧
      (∀ b n, BusCall.sprdwcn_bus_push_list_direct b n ∉ (loopcheck_send env buf len).2)) := by
  constructor
  · intro h
    simp [loopcheck_send, h]
  · intro h1 h2 h3
    simp [loopcheck_send, h1, h2, h3]

theorem send_refusals_witness :
    loopcheck_send sample_env_send_fails.send "at+loopcheck=1000,500\r\n".data 23 = (- EIO, []) ∧
    (loopcheck_send { sample_bus with list_alloc_ok := false }
        "at+loopcheck=1000,500\r\n".data 23).1 = -ENOMEM ∧
    (loopcheck_send { sample_bus with list_alloc_ok := false }
        "at+loopcheck=1000,500\r\n".data 23).2 =
      [.kzalloc 28, .sprdwcn_bus_list_alloc, .kfree] ∧
    (loopcheck_send { sample_bus with list_alloc_ok := false }
        "at+loopcheck=1000,500\r\n".data 4294967291).2 =
      [.kzalloc 0, .sprdwcn_bus_list_alloc, .kfree] :=
  ⟨(send_refusals sample_env_send_fails.send "at+loopcheck=1000,500\r\n".data 23).1 (by decide),
   ((send_refusals { sample_bus with list_alloc_ok := false }
      "at+loopcheck=1000,500\r\n".data 23).2 (by decide) (by decide) (by decide)).1,
   ((send_refusals { sample_bus with list_alloc_ok := false }
      "at+loopcheck=1000,500\r\n".data 23).2 (by decide) (by decide) (by decide)).2.1,
   ((send_refusals { sample_bus with list_alloc_ok := false }
      "at+loopcheck=1000,500\r\n".data 4294967291).2 (by decide) (by decide) (by decide)).2.1⟩

end Loopcheck

namespace Sgm41510

/-! ## Lemmas on the register access -/

theorem u8_of_lt (n : Nat) (h : n < 256) : u8 n = n := Nat.mod_eq_of_lt h

theorem u8_lt (n : Nat) : u8 n < 256 := Nat.mod_lt _ (by decide)

theorem u32_of_lt (n : Nat) (h : n < 2 ^ 32) : u32 n = n := Nat.mod_eq_of_lt h

theorem u32_sub_of_le (a b : Nat) (ha : a < 2 ^ 32) (hab : b ≤ a) : u32_sub a b = a - b := by
  unfold u32_sub
  rw [u32_of_lt a ha, u32_of_lt b (by omega)]
  omega

/-- Replacing the low `k` bits of a byte: the new low bits are the data, the other
bits are those of the old byte. -/
theorem low_field_update (k v d : Nat) (hd : d < 2 ^ k) (hk : k ≤ 8) :
    ((v &&& (0xFF ^^^ (2 ^ k - 1))) ||| (d &&& (2 ^ k - 1))) < 256 ∧
    ((v &&& (0xFF ^^^ (2 ^ k - 1))) ||| (d &&& (2 ^ k - 1))) &&& (2 ^ k - 1) = d ∧
    ((v &&& (0xFF ^^^ (2 ^ k - 1))) ||| (d &&& (2 ^ k - 1))) &&&
        (0xFF ^^^ (2 ^ k - 1)) = v &&& (0xFF ^^^ (2 ^ k - 1)) := by
  have hd8 : d < 2 ^ 8 := lt_of_lt_of_le hd (Nat.pow_le_pow_right (by decide) hk)
  have hdb : ∀ i, k ≤ i → d.testBit i = false := fun i hi =>
    Nat.testBit_lt_two_pow (lt_of_lt_of_le hd (Nat.pow_le_pow_right (by decide) hi))
  have e255 : (0xFF : Nat) = 2 ^ 8 - 1 := rfl
  refine ⟨?_, ?_, ?_⟩
  · show _ < 2 ^ 8
    apply Nat.or_lt_two_pow
    · exact Nat.and_lt_two_pow _ (by
        apply Nat.xor_lt_two_pow
        · decide
        · have := Nat.pow_le_pow_right (show 0 < 2 by decide) hk
          have := Nat.two_pow_pos k
          omega)
    · exact lt_of_le_of_lt Nat.and_le_left hd8
  · apply Nat.eq_of_testBit_eq
    intro i
    simp only [e255, Nat.testBit_and, Nat.testBit_or, Nat.testBit_xor,
      Nat.testBit_two_pow_sub_one]
    by_cases hi : i < k
    · have h8 : i < 8 := by omega
      simp [hi, h8]
    · simp [hi, hdb i (by omega)]
  · apply Nat.eq_of_testBit_eq
    intro i
    simp only [e255, Nat.testBit_and, Nat.testBit_or, Nat.testBit_xor,
      Nat.testBit_two_pow_sub_one]
    by_cases hi : i < k
    · have h8 : i < 8 := by omega
      simp [hi, h8]
    · simp [hi, hdb i (by omega)]

theorem sgm41510_read_ok (info : sgm41510_charger_info) (reg : Nat)
    (hr : 0 ≤ info.read_error) : sgm41510_read info reg = (0, some (u8 (info.regs reg))) := by
  have h1 : ¬ info.read_error < 0 := by omega
  have h2 : ¬ ((u8 (info.regs reg) : Nat) : Int) < 0 := by omega
  simp only [sgm41510_read, i2c_smbus_read_byte_data, h1, h2, if_false, Int.toNat_ofNat]
  rw [u8_of_lt _ (u8_lt _)]

theorem sgm41510_read_fail (info : sgm41510_charger_info) (reg : Nat)
    (hr : info.read_error < 0) : sgm41510_read info reg = (info.read_error, none) := by
  simp [sgm41510_read, i2c_smbus_read_byte_data, hr]

/-- A call of `sgm41510_update_bits` that returns 0 had a working bus and wrote the
merged byte. -/
theorem sgm41510_update_bits_ok (info : sgm41510_charger_info) (reg mask data : Nat)
    (hok : (sgm41510_update_bits info reg mask data).1 = 0) :
    0 ≤ info.read_error ∧
    (sgm41510_update_bits info reg mask data).2 =
      { info with
        regs := fun r => if r = reg then u8 (u8 (u8 (u8 (u8 (info.regs reg) &&&
          (0xFF ^^^ u8 mask)) ||| (u8 data &&& u8 mask)))) else info.regs r } := by
  by_cases hr : info.read_error < 0
  · simp only [sgm41510_update_bits, sgm41510_read_fail info reg hr] at hok
    omega
  · have hr' : 0 ≤ info.read_error := by omega
    refine ⟨hr', ?_⟩
    simp only [sgm41510_update_bits, sgm41510_read_ok info reg hr', sgm41510_write,
      i2c_smbus_write_byte_data] at hok ⊢
    by_cases hw : info.write_error < 0
    · simp only [hw, if_true] at hok
      omega
    · simp only [hw, if_false]

/-- A successful `sgm41510_update_bits` on a field made of the low `k` bits. -/
theorem update_low_field (info : sgm41510_charger_info) (reg k data : Nat)
    (hk : k ≤ 8) (hd : data < 2 ^ k)
    (hok : (sgm41510_update_bits info reg (2 ^ k - 1) data).1 = 0) :
    0 ≤ (sgm41510_update_bits info reg (2 ^ k - 1) data).2.read_error ∧
    (sgm41510_update_bits info reg (2 ^ k - 1) data).2.regs reg < 256 ∧
    (sgm41510_update_bits info reg (2 ^ k - 1) data).2.regs reg &&& (2 ^ k - 1) = data ∧
    (sgm41510_update_bits info reg (2 ^ k - 1) data).2.regs reg &&& (0xFF ^^^ (2 ^ k - 1))
      = info.regs reg &&& (0xFF ^^^ (2 ^ k - 1)) := by
  obtain ⟨hr, e⟩ := sgm41510_update_bits_ok info reg _ data hok
  have hm : 2 ^ k - 1 < 256 := by
    have := Nat.pow_le_pow_right (show 0 < 2 by decide) hk
    have := Nat.two_pow_pos k
    omega
  have hd8 : data < 256 := by
    have := Nat.pow_le_pow_right (show 0 < 2 by decide) hk
    omega
  obtain ⟨h1, h2, h3⟩ := low_field_update k (u8 (info.regs reg)) data hd hk
  have hand : u8 (info.regs reg) &&& (0xFF ^^^ (2 ^ k - 1)) < 256 :=
    lt_of_le_of_lt Nat.and_le_left (u8_lt _)
  have hnew : u8 (u8 (u8 (u8 (u8 (info.regs reg) &&& (0xFF ^^^ u8 (2 ^ k - 1))) |||
      (u8 data &&& u8 (2 ^ k - 1))))) =
      ((u8 (info.regs reg) &&& (0xFF ^^^ (2 ^ k - 1))) ||| (data &&& (2 ^ k - 1))) := by
    rw [u8_of_lt _ hm, u8_of_lt data hd8, u8_of_lt _ hand]
    rw [u8_of_lt _ (u8_lt _), u8_of_lt _ (u8_lt _)]
    exact u8_of_lt _ h1
  rw [e]
  simp only [if_true]
  rw [hnew]
  refine ⟨hr, h1, h2, ?_⟩
  rw [h3]
  apply Nat.eq_of_testBit_eq
  intro i
  simp only [u8, Nat.testBit_and, Nat.testBit_xor,
    show (256 : Nat) = 2 ^ 8 from rfl, show (0xFF : Nat) = 2 ^ 8 - 1 from rfl,
    Nat.testBit_mod_two_pow, Nat.testBit_two_pow_sub_one]
  by_cases h8 : i < 8
  · simp [h8]
  · simp only [h8, decide_False, Bool.false_and, Bool.false_bne]
    have hik : ¬ i < k := by omega
    simp [hik]

/-! ## Lemmas on the setters and getters -/

theorem iindpm_mask_eq : SGM4154x_IINDPM_I_MASK = 2 ^ 6 - 1 := by decide
theorem ichrg_mask_eq : SGM4154x_ICHRG_I_MASK = 2 ^ 7 - 1 := by decide
theorem vindpm_mask_eq : SGM41510_VINDPM_V_MASK = 2 ^ 7 - 1 := by decide

/-- The clamp and the field of `sgm41510_charger_set_limit_current` for a request of
at least 100000. -/
theorem iindpm_reg_val_of_ge (limit_cur : Nat) (hmin : 100000 ≤ limit_cur)
    (h32 : limit_cur < 2 ^ 32) :
    iindpm_clamped limit_cur = min limit_cur 4900000 ∧
    iindpm_reg_val limit_cur = (min limit_cur 4900000 - 100000) / 100000 ∧
    iindpm_reg_val limit_cur ≤ 48 := by
  have hc : iindpm_clamped limit_cur = min limit_cur 4900000 := by
    simp only [iindpm_clamped, u32_of_lt _ h32, SGM4154x_IINDPM_I_MAX_uA]
    split <;> omega
  have hs : u32_sub (min limit_cur 4900000) SGM4154x_IINDPM_I_MIN_uA
      = min limit_cur 4900000 - 100000 :=
    u32_sub_of_le _ _ (by omega) (by simp only [SGM4154x_IINDPM_I_MIN_uA]; omega)
  have hb : (min limit_cur 4900000 - 100000) / 100000 ≤ 48 := by omega
  refine ⟨hc, ?_, ?_⟩
  · simp only [iindpm_reg_val, hc, hs, SGM4154x_IINDPM_STEP_uA]
    exact u8_of_lt _ (by omega)
  · simp only [iindpm_reg_val, hc, hs, SGM4154x_IINDPM_STEP_uA]
    rw [u8_of_lt _ (by omega)]; exact hb

/-- What `sgm41510_charger_get_limit_current` returns on a working bus. -/
theorem get_limit_current_ok (info : sgm41510_charger_info) (hr : 0 ≤ info.read_error)
    (field : Nat) (hf : u8 (info.regs SGM41510_REG_0) &&& SGM4154x_IINDPM_I_MASK = field)
    (hle : field ≤ 48) :
    sgm41510_charger_get_limit_current info = (0, some (field * 100000 + 100000)) := by
  simp only [sgm41510_charger_get_limit_current, sgm41510_read_ok info _ hr, hf,
    SGM4154x_IINDPM_STEP_uA, SGM4154x_IINDPM_I_MIN_uA, SGM4154x_IINDPM_I_MAX_uA]
  rw [u8_of_lt _ (by omega), u32_of_lt _ (by omega)]
  split
  · have : field * 100000 + 100000 = 4900000 := by omega
    rw [this]
  · rfl

theorem set_limit_current_fst (info : sgm41510_charger_info) (limit_cur : Nat) :
    (sgm41510_charger_set_limit_current info limit_cur).1 =
      (sgm41510_update_bits info SGM41510_REG_0 SGM4154x_IINDPM_I_MASK
        (iindpm_reg_val limit_cur)).1 := by
  simp only [sgm41510_charger_set_limit_current]
  split <;> rfl

theorem set_limit_current_regs (info : sgm41510_charger_info) (limit_cur : Nat) :
    (sgm41510_charger_set_limit_current info limit_cur).2.regs =
      (sgm41510_update_bits info SGM41510_REG_0 SGM4154x_IINDPM_I_MASK
        (iindpm_reg_val limit_cur)).2.regs ∧
    (sgm41510_charger_set_limit_current info limit_cur).2.read_error =
      (sgm41510_update_bits info SGM41510_REG_0 SGM4154x_IINDPM_I_MASK
        (iindpm_reg_val limit_cur)).2.read_error := by
  simp only [sgm41510_charger_set_limit_current]
  split <;> exact ⟨rfl, rfl⟩

/-- The field of `sgm41510_charger_set_current`. -/
theorem ichrg_reg_val_eq (cur : Nat) (h32 : cur < 2 ^ 32) :
    ichrg_reg_val cur = min cur 5056000 / 64000 ∧ ichrg_reg_val cur ≤ 79 := by
  have hc : (if u32 cur ≥ SGM4154x_ICHRG_I_MAX_uA then SGM4154x_ICHRG_I_MAX_uA else u32 cur)
      = min cur 5056000 := by
    simp only [u32_of_lt _ h32, SGM4154x_ICHRG_I_MAX_uA]
    split <;> omega
  have hs : u32_sub (min cur 5056000) SGM4154x_ICHRG_I_MIN_uA = min cur 5056000 := by
    rw [u32_sub_of_le _ _ (by omega) (by simp [SGM4154x_ICHRG_I_MIN_uA])]
    simp [SGM4154x_ICHRG_I_MIN_uA]
  have hb : min cur 5056000 / 64000 ≤ 79 := by omega
  have e : ichrg_reg_val cur = min cur 5056000 / 64000 := by
    simp only [ichrg_reg_val, hc, hs, SGM4154x_ICHRG_I_STEP_uA]
    exact u8_of_lt _ (by omega)
  exact ⟨e, by rw [e]; exact hb⟩

/-- What `sgm41510_charger_get_current` returns on a working bus. -/
theorem get_current_ok (info : sgm41510_charger_info) (hr : 0 ≤ info.read_error)
    (field : Nat) (hf : u8 (info.regs SGM41510_REG_4) &&& SGM4154x_ICHRG_I_MASK = field)
    (hle : field ≤ 79) :
    sgm41510_charger_get_current info = (0, some (field * 64000)) := by
  simp only [sgm41510_charger_get_current, sgm41510_read_ok info _ hr, hf,
    SGM4154x_ICHRG_I_STEP_uA, SGM4154x_ICHRG_I_MIN_uA, SGM4154x_ICHRG_I_MAX_uA]
  rw [u8_of_lt _ (by omega), u32_of_lt _ (by omega)]
  split
  · have : field * 64000 = 5056000 := by omega
    rw [this]
  · rw [Nat.add_zero]

/-- The field of `sgm41510_charger_set_vindpm` for a request of at least 2600000. -/
theorem vindpm_reg_val_of_ge (vol : Nat) (hmin : 2600000 ≤ vol) (h32 : vol < 2 ^ 32) :
    vindpm_reg_val vol = (min vol 15300000 - 2600000) / 100000 ∧ vindpm_reg_val vol ≤ 127 := by
  have hc : (if u32 vol ≤ 3900 then 3900
      else if u32 vol > SGM41510_VINDPM_V_MAX_uV then SGM41510_VINDPM_V_MAX_uV else u32 vol)
      = min vol 15300000 := by
    simp only [u32_of_lt _ h32, SGM41510_VINDPM_V_MAX_uV]
    split
    · omega
    · split <;> omega
  have hs : u32_sub (min vol 15300000) SGM41510_VINDPM_V_MIN_uV = min vol 15300000 - 2600000 :=
    u32_sub_of_le _ _ (by omega) (by simp only [SGM41510_VINDPM_V_MIN_uV]; omega)
  have hb : (min vol 15300000 - 2600000) / 100000 ≤ 127 := by omega
  have e : vindpm_reg_val vol = (min vol 15300000 - 2600000) / 100000 := by
    simp only [vindpm_reg_val, hc, hs, SGM41510_VINDPM_STEP_uV]
    exact u8_of_lt _ (by omega)
  exact ⟨e, by rw [e]; exact hb⟩

/-- The field of `sgm41510_charger_set_ovp` as a function of the request. -/
theorem ovp_reg_val_eq (vol : Nat) (h32 : vol < 2 ^ 32) :
    ovp_reg_val vol =
      if vol ≤ 10300000 then 0
      else if vol > 15100000 then 3
      else (vol - 10300000) / 1600000 := by
  simp only [ovp_reg_val, u32_of_lt _ h32, SGM41510_OVP_V_MIN_uV, SGM41510_OVP_V_MAX_uV,
    SGM41510_VINDPM_V_MAX_uV, SGM41510_OVP_STEP_uV]
  split
  · decide
  · split
    · decide
    · rw [u32_sub_of_le _ _ h32 (by omega)]
      exact u8_of_lt _ (by omega)

/-! ## The claims on the charger -/

/-- C25: evaluation of the code at the request `limit_cur = 0` on a chip whose
registers are zero.  The subtraction `limit_cur - 100000` wraps to 4294867296,
`reg_val` is 196 as a `u8`, the masked field written to register 0 is 4, and
`sgm41510_charger_get_limit_current` decodes 500000, which is above
`max 0 100000`. -/
theorem limit_current_underflow :
    (sgm41510_charger_set_limit_current sample_info 0).1 = 0 ∧
    u32_sub (iindpm_clamped 0) SGM4154x_IINDPM_I_MIN_uA = 4294867296 ∧
    iindpm_reg_val 0 = 196 ∧
    (sgm41510_charger_set_limit_current sample_info 0).2.regs SGM41510_REG_0 = 4 ∧
    sgm41510_charger_get_limit_current (sgm41510_charger_set_limit_current sample_info 0).2
      = (0, some 500000) ∧
    ¬ (500000 ≤ max 0 100000) := by
  decide

/-- C26 (input-current limit round trip). For every 32-bit `limit_cur` of at least
100000 and every prior content of register 0, after a
`sgm41510_charger_set_limit_current` that returns 0,
`sgm41510_charger_get_limit_current` returns 0 and stores `min limit_cur 4900000`
rounded down to a multiple of 100000, which is `limit_cur` itself when `limit_cur`
is a multiple of 100000 not above 4900000; bits 7:6 of register 0 are unchanged. -/
theorem limit_current_round_trip (info : sgm41510_charger_info) (limit_cur : Nat)
    (hmin : 100000 ≤ limit_cur) (h32 : limit_cur < 2 ^ 32)
    (hok : (sgm41510_charger_set_limit_current info limit_cur).1 = 0) :
    sgm41510_charger_get_limit_current (sgm41510_charger_set_limit_current info limit_cur).2
      = (0, some (min limit_cur 4900000 / 100000 * 100000)) ∧
    (limit_cur % 100000 = 0 → limit_cur ≤ 4900000 →
      sgm41510_charger_get_limit_current (sgm41510_charger_set_limit_current info limit_cur).2
        = (0, some limit_cur)) ∧
    (sgm41510_charger_set_limit_current info limit_cur).2.regs SGM41510_REG_0 &&& 0xC0
      = info.regs SGM41510_REG_0 &&& 0xC0 := by
  obtain ⟨_, hv, hle⟩ := iindpm_reg_val_of_ge limit_cur hmin h32
  rw [set_limit_current_fst, iindpm_mask_eq] at hok
  obtain ⟨hr, h256, hfield, hhigh⟩ :=
    update_low_field info SGM41510_REG_0 6 (iindpm_reg_val limit_cur) (by decide)
      (by omega) hok
  obtain ⟨eregs, eread⟩ := set_limit_current_regs info limit_cur
  rw [iindpm_mask_eq] at eregs eread
  have hget : sgm41510_charger_get_limit_current
      (sgm41510_charger_set_limit_current info limit_cur).2
      = (0, some (min limit_cur 4900000 / 100000 * 100000)) := by
    rw [get_limit_current_ok _ (by rw [eread]; exact hr) (iindpm_reg_val limit_cur)
      (by rw [eregs, u8_of_lt _ h256, iindpm_mask_eq]; exact hfield) hle, hv]
    have : (min limit_cur 4900000 - 100000) / 100000 * 100000 + 100000
        = min limit_cur 4900000 / 100000 * 100000 := by omega
    rw [this]
  refine ⟨hget, fun hmul hmax => ?_, ?_⟩
  · rw [hget]
    have : min limit_cur 4900000 / 100000 * 100000 = limit_cur := by omega
    rw [this]
  · rw [eregs]
    exact hhigh

theorem limit_current_round_trip_witness :
    (sgm41510_charger_set_limit_current sample_info_c0 1234567).1 = 0 ∧
    (sgm41510_charger_set_limit_current sample_info_c0 1234567).2.regs SGM41510_REG_0 = 0xCB ∧
    sgm41510_charger_get_limit_current
        (sgm41510_charger_set_limit_current sample_info_c0 1234567).2
      = (0, some (min 1234567 4900000 / 100000 * 100000)) :=
  ⟨by decide, by decide,
   (limit_current_round_trip sample_info_c0 1234567 (by decide) (by decide) (by decide)).1⟩

/-- C27 (charge-current encoding). For every 32-bit `cur`, the field
`sgm41510_charger_set_current` computes is `min cur 5056000 / 64000`, at most 79 and
unchanged by the 7-bit mask; after a call that returns 0 bits 6:0 of register 4
hold that field and `sgm41510_charger_get_current` returns 0 and stores a current
`c` with `c ≤ min cur 5056000` and `min cur 5056000 - c < 64000`. -/
theorem charge_current_encoding (info : sgm41510_charger_info) (cur : Nat)
    (h32 : cur < 2 ^ 32) :
    ichrg_reg_val cur = min cur 5056000 / 64000 ∧
    ichrg_reg_val cur ≤ 79 ∧
    ichrg_reg_val cur &&& SGM4154x_ICHRG_I_MASK = ichrg_reg_val cur ∧
    ((sgm41510_charger_set_current info cur).1 = 0 →
      (sgm41510_charger_set_current info cur).2.regs SGM41510_REG_4 &&& SGM4154x_ICHRG_I_MASK
        = min cur 5056000 / 64000 ∧
      ∃ c, sgm41510_charger_get_current (sgm41510_charger_set_current info cur).2
          = (0, some c) ∧
        c ≤ min cur 5056000 ∧ min cur 5056000 - c < 64000) := by
  obtain ⟨hv, hle⟩ := ichrg_reg_val_eq cur h32
  refine ⟨hv, hle, ?_, fun hok => ?_⟩
  · rw [ichrg_mask_eq, Nat.and_pow_two_sub_one_eq_mod]
    exact Nat.mod_eq_of_lt (by omega)
  · simp only [sgm41510_charger_set_current] at hok ⊢
    rw [ichrg_mask_eq] at hok ⊢
    obtain ⟨hr, h256, hfield, _⟩ :=
      update_low_field info SGM41510_REG_4 7 (ichrg_reg_val cur) (by decide) (by omega) hok
    refine ⟨by rw [hfield, hv], min cur 5056000 / 64000 * 64000, ?_, ?_, ?_⟩
    · rw [get_current_ok _ hr (ichrg_reg_val cur)
        (by rw [u8_of_lt _ h256, ichrg_mask_eq]; exact hfield) hle, hv]
    · omega
    · omega

theorem charge_current_encoding_witness :
    ichrg_reg_val 2048000 = 32 ∧
    (sgm41510_charger_set_current sample_info 4294967295).2.regs SGM41510_REG_4 = 79 ∧
    ∃ c, sgm41510_charger_get_current (sgm41510_charger_set_current sample_info 2100000).2
        = (0, some c) ∧
      c ≤ min 2100000 5056000 ∧ min 2100000 5056000 - c < 64000 :=
  ⟨by decide, by decide,
   ((charge_current_encoding sample_info 2100000 (by decide)).2.2.2 (by decide)).2⟩

/-- C28: evaluation of the code at the request `vol = 0` on a chip whose registers
are zero.  The lower clamp is 3900, not 2600000, so `vol - 2600000` wraps to
4292371196, `reg_val` is 171 as a `u8` and the masked field written to bits 6:0 of
register 0x0D is 43, where clamping to 2600000 gives the field 0. -/
theorem vindpm_underflow :
    u32_sub 3900 SGM41510_VINDPM_V_MIN_uV = 4292371196 ∧
    vindpm_reg_val 0 = 171 ∧
    (sgm41510_charger_set_vindpm sample_info 0).1 = 0 ∧
    (sgm41510_charger_set_vindpm sample_info 0).2.regs SGM41510_REG_D
      &&& SGM41510_VINDPM_V_MASK = 43 ∧
    (max 0 2600000 - 2600000) / 100000 = 0 ∧
    vindpm_reg_val 2000000 = 191 := by
  decide

/-- C29 (OVP encoding). For every 32-bit `vol` the field
`sgm41510_charger_set_ovp` computes is 0, 1, 2 or 3, is 0 for `vol ≤ 10300000` and 3
for `vol ≥ 15100000`, does not decrease when `vol` grows, and its shifted form
`field <<< 2`, the data handed to `sgm41510_update_bits`, has no bit outside the
mask of bits 4:2. -/
theorem ovp_encoding (vol : Nat) (h32 : vol < 2 ^ 32) :
    ovp_reg_val vol ≤ 3 ∧
    (vol ≤ 10300000 → ovp_reg_val vol = 0) ∧
    (15100000 ≤ vol → ovp_reg_val vol = 3) ∧
    (∀ vol', vol ≤ vol' → vol' < 2 ^ 32 → ovp_reg_val vol ≤ ovp_reg_val vol') ∧
    (ovp_reg_val vol <<< SGM41510_REG_OVP_SHIFT) &&& SGM41510_REG_OVP_MASK
      = ovp_reg_val vol <<< SGM41510_REG_OVP_SHIFT ∧
    (∀ info, sgm41510_charger_set_ovp info vol =
      sgm41510_update_bits info SGM41510_REG_15 SGM41510_REG_OVP_MASK
        (ovp_reg_val vol <<< SGM41510_REG_OVP_SHIFT)) := by
  have hle : ovp_reg_val vol ≤ 3 := by
    rw [ovp_reg_val_eq vol h32]
    split
    · omega
    · split <;> omega
  refine ⟨hle, fun h => ?_, fun h => ?_, fun vol' hvv h32' => ?_, ?_, fun _ => rfl⟩
  · rw [ovp_reg_val_eq vol h32]; simp [h]
  · rw [ovp_reg_val_eq vol h32]
    split
    · omega
    · split
      · rfl
      · omega
  · rw [ovp_reg_val_eq vol h32, ovp_reg_val_eq vol' h32']
    split <;> split <;> (try split) <;> (try split) <;> omega
  · have : ovp_reg_val vol = 0 ∨ ovp_reg_val vol = 1 ∨ ovp_reg_val vol = 2 ∨
        ovp_reg_val vol = 3 := by omega
    rcases this with h | h | h | h <;> rw [h] <;> decide

theorem ovp_encoding_witness :
    [0, 10300000, 11900000, 13500000, 15100000, 15100001, 4294967295].map ovp_reg_val
      = [0, 0, 1, 2, 3, 3, 3] ∧
    ovp_reg_val 12000000 ≤ ovp_reg_val 14000000 :=
  ⟨by decide, (ovp_encoding 12000000 (by decide)).2.2.2.1 14000000 (by decide) (by decide)⟩

end Sgm41510

namespace TpCommon

/-- C30: evaluation of the code at `tp_set_inited(false)`.  The body assigns `true`
whatever the argument, so `tp_is_inited()` returns `true` afterwards, from the
initial `tp_inited = false` as from `tp_inited = true`. -/
theorem tp_set_inited_ignores_argument :
    tp_is_inited (tp_set_inited false false) = true ∧
    tp_is_inited (tp_set_inited true false) = true ∧
    tp_is_inited (tp_set_inited false false) ≠ false := by
  decide

end TpCommon
